import Mathlib

/-!
Shallow embedding of the enrollait-backend Stripe checkout and webhook
fulfillment pipeline (src/app/api/routes/stripe_checkout.py and
src/app/api/routes/stripe_webhooks.py), together with proofs about the
claims on the order state machine, the fulfillment saga and the amount
computation.

Database rows are embedded as Lean structures, database tables as lists
of rows, and the SQL statements of the source as list operations.  The
remote systems (Stripe, Moodle) are embedded as oracles: the outcome of
each network call is an input of the embedded function.  Side effects
other than database writes are recorded in an explicit event trace so
that "no LMS call happens" is a provable statement.

All Python `int` values are embedded as `Int`; `None` as `Option.none`;
Python string falsiness (`if s:`) is embedded by `strTruthy`.  A FastAPI
route that returns a plain dict responds with HTTP 200, so the embedded
responses carry `httpStatus := 200` on every return path of the source.
-/

/-- Python-style truthiness for an optional string: `None` and `""` are
falsy, everything else is the string itself. -/
def strTruthy : Option String → Option String
  | some s => if s = "" then none else some s
  | none => none

/-- Python `str.rstrip("/")`. -/
def rstripSlashes (s : String) : String :=
  String.mk ((s.toList.reverse.dropWhile (fun c => c = '/')).reverse)

/-- Python `str.lower()` (modeled on ASCII letters, code-point-wise). -/
def pyLower (s : String) : String := String.mk (s.data.map Char.toLower)

/-- Python whitespace (the characters `str.strip()` removes). -/
def isPySpace (c : Char) : Bool :=
  c == ' ' || c == '\t' || c == '\n' || c == '\r' || c == '\x0b' || c == '\x0c'

/-- Python `str.strip()`. -/
def pyStrip (s : String) : String :=
  String.mk (((s.data.dropWhile isPySpace).reverse.dropWhile isPySpace).reverse)

/-- Python slicing `s[:n]` (by code points). -/
def pyTake (n : Nat) (s : String) : String := String.mk (s.data.take n)

/-- `str.startswith` (code-point-wise). -/
def strStartsWith (s pfx : String) : Bool := pfx.data.isPrefixOf s.data

/-- Python slicing `s[n:]` (by code points). -/
def strDrop (n : Nat) (s : String) : String := String.mk (s.data.drop n)

/-- Python `int(s)`: strip whitespace, optional sign, decimal digits
(the `_` digit grouping Python also accepts is not modeled). `None`
models a raised `ValueError`. -/
def pyToInt? (s : String) : Option Int :=
  let l := (pyStrip s).data
  let core : List Char × Int := match l with
    | '+' :: rest => (rest, 1)
    | '-' :: rest => (rest, -1)
    | _ => (l, 1)
  if core.1 ≠ [] ∧ core.1.all Char.isDigit then
    some (core.2 * ((core.1.foldl (fun acc c => acc * 10 + (c.toNat - 48)) 0 : Nat) : Int))
  else none

/-- Python falsiness on an optional integer id (`if not moodle_user_id:`):
`None` and `0` are both falsy. -/
def truthyId : Option Int → Option Int
  | some i => if i = 0 then none else some i
  | none => none

/-- Row of the `tenants` table (the columns this pipeline reads). -/
structure Tenant where
  id : Int
  stripe_secret_key : Option String := none
  stripe_webhook_secret : Option String := none
  stripe_publishable_key : Option String := none
  moodle_url : Option String := none
  moodle_token : Option String := none
  domain : Option String := none
deriving Repr, DecidableEq

/-- Row of the `tenant_domains` table (ordered as the source's
`order by created_at asc, id asc` query returns them). -/
structure TenantDomain where
  tenant_id : Int
  host : Option String := none
deriving Repr, DecidableEq

/-- Row of the `products` table (the columns checkout reads). -/
structure Product where
  id : Int
  tenant_id : Int
  title : Option String := none
  description : Option String := none
  image_url : Option String := none
  price_cents : Option Int := none
  currency : Option String := none
  discounted_price : Option ℚ := none
deriving Repr, DecidableEq

/-- Row of the `orders` table. -/
structure Order where
  id : Int
  tenant_id : Int
  product_id : Option Int := none
  buyer_email : Option String := none
  stripe_session_id : Option String := none
  status : String := "pending"
  total_cents : Option Int := none
deriving Repr, DecidableEq

/-- Row of the `order_enrollments` table (the saga's checkpoint log),
unique on (order_id, moodle_course_id). -/
structure EnrollmentRow where
  tenant_id : Int
  order_id : Int
  moodle_course_id : Int
  moodle_user_id : Option Int := none
  status : String
  error : Option String := none
deriving Repr, DecidableEq

/-- Row of the `product_courses` link table. -/
structure ProductCourse where
  tenant_id : Int
  product_id : Int
  moodle_course_id : Int
deriving Repr, DecidableEq

/-- Row of the `user_map` table, unique on (tenant_id, email). -/
structure UserMapRow where
  tenant_id : Int
  email : String
  moodle_user_id : Int
deriving Repr, DecidableEq

/-- The database state the pipeline touches. -/
structure DB where
  tenants : List Tenant := []
  tenant_domains : List TenantDomain := []
  products : List Product := []
  product_courses : List ProductCourse := []
  orders : List Order := []
  order_enrollments : List EnrollmentRow := []
  user_map : List UserMapRow := []
deriving Repr, DecidableEq

/-- Observable side-effect events other than database writes (the
database writes are visible in the returned `DB`).  `upsertLog` records a
checkpoint upsert into `order_enrollments`; `enrollCall` an
`enrol_manual_enrol_users` network call to the LMS. -/
inductive Ev where
  | findUser (email : String)
  | createUser (email : String)
  | userMapUpsert (email : String)
  | upsertLog (cid : Int) (status : String)
  | enrollCall (uid cid : Int)
deriving Repr, DecidableEq

/-- Oracle for the Moodle (LMS) network calls: the saga's behavior as a
function of each remote call's outcome.  `Except.error e` is a raised
exception whose formatted message is `e`. -/
structure LMS where
  findUser : String → Except String (Option Int)
  createUser : String → Except String Int
  enroll : Int → Int → Except String Unit

/-- `_get_tenant_stripe` of stripe_webhooks.py: (secret key, webhook secret). -/
def _get_tenant_stripe (db : DB) (tenant_id : Int) : Option String × Option String :=
  match db.tenants.find? (fun r => r.id == tenant_id) with
  | none => (none, none)
  | some r => (r.stripe_secret_key, r.stripe_webhook_secret)

/-- `_get_tenant_stripe_keys` of stripe_checkout.py. -/
def _get_tenant_stripe_keys (db : DB) (tenant_id : Int) :
    Option String × Option String × Option String :=
  match db.tenants.find? (fun r => r.id == tenant_id) with
  | none => (none, none, none)
  | some r => (r.stripe_secret_key, r.stripe_webhook_secret, r.stripe_publishable_key)

/-- `_get_tenant_moodle` of stripe_webhooks.py: `None` when the row is
missing or either column is falsy, otherwise the url with trailing
slashes stripped and the stripped token. -/
def _get_tenant_moodle (db : DB) (tenant_id : Int) : Option (String × String) :=
  match db.tenants.find? (fun r => r.id == tenant_id) with
  | none => none
  | some r =>
    match r.moodle_url, r.moodle_token with
    | some u, some k => if u = "" ∨ k = "" then none else some (rstripSlashes u, pyStrip k)
    | some _, none => none
    | none, _ => none

/-- `_get_order_by_id` of stripe_webhooks.py. -/
def _get_order_by_id (db : DB) (order_id : Int) : Option Order :=
  db.orders.find? (fun r => r.id == order_id)

/-- `_extract_order_id_from_event`: `metadata.order_id` first (when
truthy; an unparsable value yields `None` without falling through), then
`client_reference_id`. -/
def _extract_order_id_from_event (metadata_order_id client_reference_id : Option String) :
    Option Int :=
  match strTruthy metadata_order_id with
  | some s => pyToInt? s
  | none =>
    match strTruthy client_reference_id with
    | some s => pyToInt? s
    | none => none

/-- `_set_order_paid_if_needed`: `status := 'paid'` unless already
`'fulfilled'`; `buyer_email` filled only when it was NULL or empty and a
new email is provided. -/
def _set_order_paid_if_needed (db : DB) (order_id : Int) (email : Option String) : DB :=
  { db with orders := db.orders.map (fun r =>
      if r.id == order_id then
        { r with
          status := if r.status = "fulfilled" then r.status else "paid",
          buyer_email :=
            if r.buyer_email.getD "" = "" ∧ email.isSome then email else r.buyer_email }
      else r) }

/-- `_set_order_status`. -/
def _set_order_status (db : DB) (order_id : Int) (status : String) : DB :=
  { db with orders := db.orders.map (fun r =>
      if r.id == order_id then { r with status := status } else r) }

/-- `_mark_order_expired`: set `status := 'expired'` on the rows matching
(tenant_id, stripe_session_id) whose status is not in
('paid', 'expired', 'fulfilled'). -/
def _mark_order_expired (db : DB) (tenant_id : Int) (sid : String) : DB :=
  { db with orders := db.orders.map (fun r =>
      if r.tenant_id == tenant_id ∧ r.stripe_session_id == some sid ∧
          ¬(r.status = "paid" ∨ r.status = "expired" ∨ r.status = "fulfilled") then
        { r with status := "expired" }
      else r) }

/-- `_upsert_order_enrollment`: insert or, on (order_id, moodle_course_id)
conflict, update with `moodle_user_id = coalesce(new, old)`, new status
and new error; the error text is truncated to 2000 characters. -/
def _upsert_order_enrollment (db : DB) (tenant_id order_id cid : Int)
    (uid : Option Int) (status : String) (error : Option String) : DB :=
  let err := error.map (fun e => pyTake 2000 e)
  if db.order_enrollments.any (fun r => r.order_id == order_id && r.moodle_course_id == cid) then
    { db with order_enrollments := db.order_enrollments.map (fun r =>
        if r.order_id == order_id && r.moodle_course_id == cid then
          { r with
            tenant_id := tenant_id,
            moodle_user_id := match uid with | some u => some u | none => r.moodle_user_id,
            status := status,
            error := err }
        else r) }
  else
    { db with order_enrollments :=
        db.order_enrollments ++ [⟨tenant_id, order_id, cid, uid, status, err⟩] }

/-- `_get_already_enrolled_courses`: course ids with status 'enrolled'
for this order. -/
def _get_already_enrolled_courses (db : DB) (order_id : Int) : List Int :=
  (db.order_enrollments.filter (fun r => r.order_id == order_id && r.status == "enrolled")).map
    (fun r => r.moodle_course_id)

/-- `_get_product_course_ids_only_product_courses`: the de-duplicated,
ascending-sorted moodle course ids linked to the product. -/
def _get_product_course_ids (db : DB) (tenant_id product_id : Int) : List Int :=
  List.insertionSort (· ≤ ·)
    (((db.product_courses.filter
        (fun r => r.tenant_id == tenant_id && r.product_id == product_id)).map
      (fun r => r.moodle_course_id)).dedup)

/-- `_upsert_user_map`: insert or update the (tenant_id, email) row. -/
def _upsert_user_map (db : DB) (tenant_id : Int) (email : String) (uid : Int) : DB :=
  if db.user_map.any (fun r => r.tenant_id == tenant_id && r.email == email) then
    { db with user_map := db.user_map.map (fun r =>
        if r.tenant_id == tenant_id && r.email == email then
          { r with moodle_user_id := uid }
        else r) }
  else
    { db with user_map := db.user_map ++ [⟨tenant_id, email, uid⟩] }

/-- Result dict of `_ensure_user_and_enroll` (the fields the source
returns; absent dict keys are the defaults). -/
structure FulfillResult where
  ok : Bool
  message : Option String := none
  email : Option String := none
  moodle_user_id : Option Int := none
  created_user : Bool := false
  enrolled_courses : List Int := []
  skipped_courses : List Int := []
deriving Repr, DecidableEq

/-- Output of the enrollment loop of `_ensure_user_and_enroll`. -/
structure LoopOut where
  ok : Bool
  msg : Option String := none
  enrolled : List Int
  skipped : List Int
  db : DB
  tr : List Ev
deriving Repr

/-- Output of the saga / webhook handler: result, database, event trace. -/
structure SagaOut where
  res : FulfillResult
  db : DB
  tr : List Ev
deriving Repr

/-- The `for cid in course_ids:` loop of `_ensure_user_and_enroll`
(stripe_webhooks.py lines 1206-1287): skip courses already enrolled for
this order; otherwise upsert an 'attempt' checkpoint, call the LMS, and
either upsert 'enrolled' and continue, or upsert 'failed' with the error
text and abort, returning failure with the courses enrolled so far. -/
def enrollLoop (lms : LMS) (tenant_id order_id uid : Int) (already : List Int) :
    List Int → DB → List Int → List Int → LoopOut
  | [], db, enrolled, skipped => ⟨true, none, enrolled, skipped, db, []⟩
  | cid :: rest, db, enrolled, skipped =>
    if already.contains cid then
      enrollLoop lms tenant_id order_id uid already rest db enrolled (skipped ++ [cid])
    else
      let db1 := _upsert_order_enrollment db tenant_id order_id cid (some uid) "attempt" none
      match lms.enroll uid cid with
      | Except.ok _ =>
        let db2 := _upsert_order_enrollment db1 tenant_id order_id cid (some uid) "enrolled" none
        let out := enrollLoop lms tenant_id order_id uid already rest db2 (enrolled ++ [cid]) skipped
        ⟨out.ok, out.msg, out.enrolled, out.skipped, out.db,
          Ev.upsertLog cid "attempt" :: Ev.enrollCall uid cid :: Ev.upsertLog cid "enrolled"
            :: out.tr⟩
      | Except.error e =>
        let db2 := _upsert_order_enrollment db1 tenant_id order_id cid (some uid) "failed" (some e)
        ⟨false, some e, enrolled, skipped, db2,
          [Ev.upsertLog cid "attempt", Ev.enrollCall uid cid, Ev.upsertLog cid "failed"]⟩

/-- `_ensure_user_and_enroll` from the user-map upsert on (the part after
the remote user id has been resolved to `uid`). -/
def afterUser (lms : LMS) (db : DB) (tenant_id : Int) (email : String)
    (product_id order_id uid : Int) (created : Bool) : SagaOut :=
  let db1 := _upsert_user_map db tenant_id email uid
  let course_ids := _get_product_course_ids db1 tenant_id product_id
  if course_ids.isEmpty then
    ⟨{ ok := false, message := some "No Moodle courses linked to product in product_courses",
       moodle_user_id := some uid, created_user := created }, db1, [Ev.userMapUpsert email]⟩
  else
    let already := _get_already_enrolled_courses db1 order_id
    let out := enrollLoop lms tenant_id order_id uid already course_ids db1 [] []
    if out.ok then
      ⟨{ ok := true, email := some email, moodle_user_id := some uid, created_user := created,
         enrolled_courses := out.enrolled, skipped_courses := out.skipped },
       out.db, Ev.userMapUpsert email :: out.tr⟩
    else
      ⟨{ ok := false, message := out.msg, moodle_user_id := some uid, created_user := created,
         enrolled_courses := out.enrolled, skipped_courses := out.skipped },
       out.db, Ev.userMapUpsert email :: out.tr⟩

/-- `_ensure_user_and_enroll` (stripe_webhooks.py lines 1149-1299): the
fulfillment saga.  Resolve Moodle credentials, find or create the remote
user, cache the user mapping, resolve the linked course set, then run the
resume-aware enrollment loop. -/
def _ensure_user_and_enroll (lms : LMS) (db : DB) (tenant_id : Int)
    (buyer_email : String) (product_id order_id : Int) : SagaOut :=
  match _get_tenant_moodle db tenant_id with
  | none => ⟨{ ok := false, message := some "Tenant Moodle not configured" }, db, []⟩
  | some _cfg =>
    let email := pyLower (pyStrip buyer_email)
    match lms.findUser email with
    | Except.error e =>
      ⟨{ ok := false, message := some ("Find user failed: " ++ e) }, db, [Ev.findUser email]⟩
    | Except.ok found =>
      match truthyId found with
      | some uid =>
        let out := afterUser lms db tenant_id email product_id order_id uid false
        ⟨out.res, out.db, Ev.findUser email :: out.tr⟩
      | none =>
        match lms.createUser email with
        | Except.error e =>
          ⟨{ ok := false, message := some ("Create user failed: " ++ e) }, db,
            [Ev.findUser email, Ev.createUser email]⟩
        | Except.ok uid =>
          let out := afterUser lms db tenant_id email product_id order_id uid true
          ⟨out.res, out.db, Ev.findUser email :: Ev.createUser email :: out.tr⟩

/-- The `data.object` of a Stripe checkout-session event: the fields the
handler reads. -/
structure StripeObj where
  id : Option String := none
  metadata_order_id : Option String := none
  client_reference_id : Option String := none
  payment_status : Option String := none
  customer_details_email : Option String := none
  customer_details_name : Option String := none
  customer_email : Option String := none
deriving Repr, DecidableEq

/-- Outcome of `stripe.Webhook.construct_event` with the tenant's webhook
secret: success, `SignatureVerificationError`, or any other exception. -/
inductive SigOutcome where
  | ok
  | sigFail
  | otherError (msg : String)
deriving Repr, DecidableEq

/-- One webhook delivery as the handler observes it: the raw request
facts (header presence, JSON parseability, the unverified parse
`objGuess`) and the verification oracle (`sigOutcome`, and the verified
event's `event_type`/`obj`, which `construct_event` parses from the same
raw body). -/
structure WebhookReq where
  sig_header : Option String := none
  json_ok : Bool := true
  objGuess : StripeObj := {}
  sigOutcome : SigOutcome := SigOutcome.ok
  event_type : String := ""
  obj : StripeObj := {}
deriving Repr, DecidableEq

/-- The JSON body of the webhook response.  Every return path of the
source returns a plain dict from a FastAPI route, which is serialized
with HTTP status 200, hence `httpStatus := 200` on every constructor
site. -/
structure Resp where
  httpStatus : Nat := 200
  ok : Bool
  ignored : Bool := false
  message : Option String := none
  order_id : Option Int := none
  tenant_id : Option Int := none
  fulfillment : Option FulfillResult := none
deriving Repr, DecidableEq

/-- Output of the webhook handler: response, database, event trace. -/
structure WebhookOut where
  resp : Resp
  db : DB
  tr : List Ev
deriving Repr

/-- Line 1392: `(customer_details.get("email") or obj.get("customer_email")
or "").strip().lower() or None`. -/
def stripeEmailOf (obj : StripeObj) : Option String :=
  let raw := match strTruthy obj.customer_details_email with
    | some e => e
    | none => (strTruthy obj.customer_email).getD ""
  strTruthy (some (pyLower (pyStrip raw)))

/-- Line 1396: Stripe email first, else the stripped-lowered database
email when truthy. -/
def finalEmailOf (obj : StripeObj) (dbEmail : Option String) : Option String :=
  match stripeEmailOf obj with
  | some e => some e
  | none =>
    match strTruthy dbEmail with
    | some be => some (pyLower (pyStrip be))
    | none => none

/-- Line 1385: `(obj.get("payment_status") or "").lower()`. -/
def paymentStatusOf (obj : StripeObj) : String :=
  pyLower (obj.payment_status.getD "")

/-- The completed-checkout branch after the order-id and session-id match
checks (stripe_webhooks.py lines 1384-1441): payment-status gate, buyer
email resolution, product check, replay check, mark paid, run the saga,
mark fulfilled on saga success. -/
def completedStage2 (lms : LMS) (db : DB) (ord : Order) (obj : StripeObj) : WebhookOut :=
  let payment_status := paymentStatusOf obj
  if payment_status ≠ "" ∧ payment_status ≠ "paid" then
    ⟨{ ok := true, ignored := true, message := some "Payment not paid" }, db, []⟩
  else
    match finalEmailOf obj ord.buyer_email with
    | none =>
      ⟨{ ok := true, message := some "Missing buyer email; cannot enroll",
         order_id := some ord.id }, db, []⟩
    | some femail =>
      match ord.product_id with
      | none =>
        ⟨{ ok := true, message := some "Order missing product_id; cannot enroll",
           order_id := some ord.id }, db, []⟩
      | some pid =>
        if ord.status = "fulfilled" then
          ⟨{ ok := true, message := some "Already fulfilled", order_id := some ord.id }, db, []⟩
        else
          let db1 := _set_order_paid_if_needed db ord.id (some femail)
          let out := _ensure_user_and_enroll lms db1 ord.tenant_id femail pid ord.id
          let db3 := if out.res.ok then _set_order_status out.db ord.id "fulfilled" else out.db
          ⟨{ ok := true, tenant_id := some ord.tenant_id, order_id := some ord.id,
             fulfillment := some out.res }, db3, out.tr⟩

/-- The completed-checkout branch (stripe_webhooks.py lines 1369-1382):
re-extract the order id from the verified payload and require it to match
the loaded order; require a stored session id, when present, to match the
event's session id. -/
def handleCompleted (lms : LMS) (db : DB) (ord : Order) (obj : StripeObj) : WebhookOut :=
  match strTruthy obj.id with
  | none => ⟨{ ok := true }, db, []⟩
  | some sid =>
    match _extract_order_id_from_event obj.metadata_order_id obj.client_reference_id with
    | none => ⟨{ ok := true, ignored := true, message := some "Order mismatch" }, db, []⟩
    | some eid =>
      if eid = 0 ∨ eid ≠ ord.id then
        ⟨{ ok := true, ignored := true, message := some "Order mismatch" }, db, []⟩
      else
        match strTruthy ord.stripe_session_id with
        | some dsid =>
          if dsid ≠ sid then
            ⟨{ ok := true, ignored := true, message := some "Session mismatch" }, db, []⟩
          else completedStage2 lms db ord obj
        | none => completedStage2 lms db ord obj

/-- Dispatch on the verified event's type (stripe_webhooks.py lines
1356-1454). -/
def handleVerified (lms : LMS) (req : WebhookReq) (db : DB) (ord : Order) : WebhookOut :=
  if req.event_type = "checkout.session.completed" then
    handleCompleted lms db ord req.obj
  else if req.event_type = "checkout.session.expired" then
    match strTruthy req.obj.id with
    | some sid => ⟨{ ok := true }, _mark_order_expired db ord.tenant_id sid, []⟩
    | none => ⟨{ ok := true }, db, []⟩
  else ⟨{ ok := true }, db, []⟩

/-- `stripe_webhook` (stripe_webhooks.py lines 1305-1454): header check,
unverified JSON parse, order-id extraction, order load, tenant-secret
lookup, signature verification, then dispatch.  Every return is a plain
dict, i.e. HTTP 200. -/
def stripe_webhook (lms : LMS) (req : WebhookReq) (db : DB) : WebhookOut :=
  if req.sig_header.getD "" = "" then
    ⟨{ ok := false, message := some "Missing Stripe-Signature header" }, db, []⟩
  else if ¬req.json_ok then
    ⟨{ ok := false, message := some "Invalid JSON payload" }, db, []⟩
  else
    match _extract_order_id_from_event req.objGuess.metadata_order_id
        req.objGuess.client_reference_id with
    | none =>
      ⟨{ ok := true, ignored := true, message := some "Missing order_id in Stripe event" },
        db, []⟩
    | some g =>
      if g = 0 then
        ⟨{ ok := true, ignored := true, message := some "Missing order_id in Stripe event" },
          db, []⟩
      else
        match _get_order_by_id db g with
        | none => ⟨{ ok := true, ignored := true, message := some "Order not found" }, db, []⟩
        | some ord =>
          if (_get_tenant_stripe db ord.tenant_id).2.getD "" = "" then
            ⟨{ ok := true, ignored := true,
               message := some "Tenant Stripe webhook not configured",
               tenant_id := some ord.tenant_id }, db, []⟩
          else
            match req.sigOutcome with
            | SigOutcome.sigFail =>
              ⟨{ ok := false, message := some "Invalid Stripe signature" }, db, []⟩
            | SigOutcome.otherError e =>
              ⟨{ ok := false, message := some ("Webhook error: " ++ e) }, db, []⟩
            | SigOutcome.ok => handleVerified lms req db ord

/-- `_normalize_host` of stripe_checkout.py: strip an `http://`/`https://`
scheme (case-insensitive), cut at the first `/`, `?` or `#`, strip
whitespace, strip trailing slashes. -/
def _normalize_host (host : String) : String :=
  let h := pyStrip host
  let h := if strStartsWith (pyLower h) "https://" then strDrop 8 h
           else if strStartsWith (pyLower h) "http://" then strDrop 7 h
           else h
  let h := pyStrip (String.mk (h.data.takeWhile (fun c => c ≠ '/' ∧ c ≠ '?' ∧ c ≠ '#')))
  rstripSlashes h

/-- `_frontend_base_url_from_host`: empty for an empty normalized host,
`http://` for localhost-like hosts, `https://` otherwise. -/
def _frontend_base_url_from_host (host : String) : String :=
  let h := _normalize_host host
  if h = "" then ""
  else if strStartsWith h "localhost" ∨ strStartsWith h "127.0.0.1" then "http://" ++ h
  else "https://" ++ h

/-- `_get_tenant_primary_host`: the first `tenant_domains` row for the
tenant (`limit 1`); `None` when the row is missing or its host is falsy,
otherwise the stripped host. -/
def _get_tenant_primary_host (db : DB) (tenant_id : Int) : Option String :=
  match db.tenant_domains.find? (fun r => r.tenant_id == tenant_id) with
  | none => none
  | some r =>
    match r.host with
    | none => none
    | some h => if h = "" then none else some (pyStrip h)

/-- `_get_tenants_domain_fallback`: `tenants.domain`, stripped, when truthy. -/
def _get_tenants_domain_fallback (db : DB) (tenant_id : Int) : Option String :=
  match db.tenants.find? (fun r => r.id == tenant_id) with
  | none => none
  | some r =>
    match r.domain with
    | none => none
    | some d => if d = "" then none else some (pyStrip d)

/-- `Decimal(str(q)).quantize(Decimal("0.01"), rounding=ROUND_HALF_UP)`
followed by `int(d * 100)` (stripe_checkout.py lines 414-415): the cent
amount `100·q` rounded to the nearest integer with halves away from zero.
For `q ≥ 0` this is `⌊100·q + 1/2⌋ = ⌊(200·num + den) / (2·den)⌋`, written
with `Int.fdiv` (floor division; `den > 0`) so that it evaluates by kernel
reduction; for `q < 0` it is the negation on `-q`. -/
def decCentsHalfUp (q : ℚ) : Int :=
  if 0 ≤ q.num then (200 * q.num + (q.den : Int)).fdiv (2 * (q.den : Int))
  else -((200 * -q.num + (q.den : Int)).fdiv (2 * (q.den : Int)))

/-- Request body of the checkout-session endpoint. -/
structure CheckoutReq where
  product_id : Option Int := none
  customer_email : Option String := none
deriving Repr, DecidableEq

/-- The session object Stripe returns on a successful
`stripe.checkout.Session.create`. -/
structure StripeSession where
  id : String
  client_secret : String
deriving Repr, DecidableEq

/-- The arguments of the `stripe.checkout.Session.create` call that this
verification tracks. -/
structure StripeCallRec where
  unit_amount : Int
  currency : String
  client_reference_id : Int
  metadata_order_id : Int
  customer_email : Option String := none
deriving Repr, DecidableEq

/-- Output of the checkout-session endpoint: response fields, database,
and the Stripe call record (`none` when the payment processor was never
contacted). -/
structure CheckoutOut where
  ok : Bool
  message : Option String := none
  order_id : Option Int := none
  session_id : Option String := none
  client_secret : Option String := none
  return_url : Option String := none
  db : DB
  stripeCall : Option StripeCallRec := none
deriving Repr, DecidableEq

/-- The host resolution of `create_checkout_session`: `tenant_domains`
first, falling back to `tenants.domain` when absent or falsy. -/
def checkoutHost (db : DB) (tenant_id : Int) : Option String :=
  match _get_tenant_primary_host db tenant_id with
  | some h => if h = "" then _get_tenants_domain_fallback db tenant_id else some h
  | none => _get_tenants_domain_fallback db tenant_id

/-- A fresh `orders.id` for the `returning id` of the insert (bigserial). -/
def freshOrderId (db : DB) : Int :=
  (db.orders.map (fun r => r.id)).foldr max 0 + 1

/-- `create_checkout_session` (stripe_checkout.py lines 352-514).
`stripeCreate` is the oracle outcome of `stripe.checkout.Session.create`.
The session has `autocommit=False` and commits only after the
session-id update (line 496); on an exception the handler calls
`db.rollback()` (line 509, and app/core/db.py), so the uncommitted order
insert is undone and the returned database is the original one. -/
def create_checkout_session (db : DB) (tenant_id : Int) (req : CheckoutReq)
    (stripeCreate : Except String StripeSession) : CheckoutOut :=
  let customer_email := strTruthy (some (pyLower (pyStrip (req.customer_email.getD ""))))
  match req.product_id with
  | none => { ok := false, message := some "Missing product_id", db := db }
  | some pid =>
    if pid = 0 then { ok := false, message := some "Missing product_id", db := db }
    else if (_get_tenant_stripe_keys db tenant_id).1.getD "" = "" then
      { ok := false, message := some "Stripe not configured for this tenant", db := db }
    else
      let frontend_base := _frontend_base_url_from_host ((checkoutHost db tenant_id).getD "")
      if frontend_base = "" then
        { ok := false,
          message := some
            "Tenant host not configured (needed to build return_url). Add a row in tenant_domains.",
          db := db }
      else
        let return_url := frontend_base ++ "/thank-you?session_id=\x7bCHECKOUT_SESSION_ID\x7d"
        match db.products.find? (fun r => r.tenant_id == tenant_id && r.id == pid) with
        | none => { ok := false, message := some "Product not found", db := db }
        | some prod =>
          let unit_amount : Int := match prod.discounted_price with
            | some d => decCentsHalfUp d
            | none => prod.price_cents.getD 0
          if unit_amount < 50 then
            { ok := false, message := some "Invalid price", db := db }
          else
            let currency := match strTruthy prod.currency with
              | some c => pyLower c
              | none => "usd"
            let order_id := freshOrderId db
            let newOrder : Order :=
              { id := order_id, tenant_id := tenant_id, product_id := some pid,
                buyer_email := customer_email, status := "pending",
                total_cents := some unit_amount }
            let dbIns := { db with orders := db.orders ++ [newOrder] }
            let callRec : StripeCallRec :=
              { unit_amount := unit_amount, currency := currency,
                client_reference_id := order_id, metadata_order_id := order_id,
                customer_email := customer_email }
            match stripeCreate with
            | Except.error e =>
              { ok := false, message := some e, db := db, stripeCall := some callRec }
            | Except.ok session =>
              let dbUpd := { dbIns with orders := dbIns.orders.map (fun r =>
                  if r.id == order_id && r.tenant_id == tenant_id then
                    { r with stripe_session_id := some session.id }
                  else r) }
              { ok := true, order_id := some order_id, session_id := some session.id,
                client_secret := some session.client_secret, return_url := some return_url,
                db := dbUpd, stripeCall := some callRec }

/-! ## Example fixtures (used by witnesses and counterexamples) -/

/-- A tenant with Stripe and Moodle fully configured, a product `7` linked
to remote courses `101 < 102 < 103`, and one order `42`. -/
def exDb (orderStatus : String) (buyerEmail : Option String) : DB :=
  { tenants := [{ id := 1, stripe_secret_key := some "sk_live_x",
                  stripe_webhook_secret := some "whsec_x",
                  moodle_url := some "https://lms.example.com/",
                  moodle_token := some "tok" }],
    tenant_domains := [{ tenant_id := 1, host := some "shop.example.com" }],
    products := [{ id := 7, tenant_id := 1, price_cents := some 1999 }],
    product_courses := [⟨1, 7, 102⟩, ⟨1, 7, 101⟩, ⟨1, 7, 103⟩],
    orders := [{ id := 42, tenant_id := 1, product_id := some 7,
                 buyer_email := buyerEmail, stripe_session_id := some "cs_1",
                 status := orderStatus }] }

/-- An LMS oracle on which every call succeeds (user `9` exists). -/
def exLmsOk : LMS :=
  { findUser := fun _ => Except.ok (some 9),
    createUser := fun _ => Except.ok 9,
    enroll := fun _ _ => Except.ok () }

/-- An LMS oracle on which enrolling into course 102 raises a
`MoodleError`. -/
def exLmsFail102 : LMS :=
  { findUser := fun _ => Except.ok (some 9),
    createUser := fun _ => Except.ok 9,
    enroll := fun _ c => if c = 102 then Except.error "MoodleError: boom" else Except.ok () }

/-- A verified completed-checkout delivery for order 42 / session cs_1. -/
def exReqCompleted : WebhookReq :=
  { sig_header := some "t=1,v1=sig",
    objGuess := { id := some "cs_1", metadata_order_id := some "42" },
    event_type := "checkout.session.completed",
    obj := { id := some "cs_1", metadata_order_id := some "42",
             payment_status := some "paid",
             customer_details_email := some "Buyer@Example.com" } }

/-! ## Helper lemmas -/

/-- `List.Forall₂` between a list and its image under `f`, from the
pointwise property. -/
theorem forall2_map_self {α : Type} (R : α → α → Prop) (f : α → α)
    (h : ∀ a, R a (f a)) : ∀ l : List α, List.Forall₂ R l (l.map f)
  | [] => List.Forall₂.nil
  | a :: l => List.Forall₂.cons (h a) (forall2_map_self R f h l)

/-- `List.Forall₂` between a list and itself, from reflexivity. -/
theorem forall2_self {α : Type} (R : α → α → Prop) (h : ∀ a, R a a) :
    ∀ l : List α, List.Forall₂ R l l
  | [] => List.Forall₂.nil
  | a :: l => List.Forall₂.cons (h a) (forall2_self R h l)

/-- `find?` through a guarded in-place update: updating exactly the rows
satisfying `p` (with an update that keeps `p` true) commutes with
`find? p`. -/
theorem find?_map_if {α : Type} (p : α → Bool) (g : α → α)
    (hg : ∀ a, p a = true → p (g a) = true) :
    ∀ l : List α, (l.map (fun a => if p a then g a else a)).find? p = (l.find? p).map g := by
  intro l
  induction l with
  | nil => rfl
  | cons a l ih =>
    by_cases hpa : p a = true
    · simp [List.find?, hpa, hg a hpa]
    · have hpa' : p a = false := by
        cases hp : p a
        · rfl
        · exact absurd hp hpa
      simp [List.find?, hpa', ih]

/-- The order-row update functions of the webhook pipeline preserve
`Order.id`, so `find?` by id commutes with them. -/
theorem find?_orders_update (l : List Order) (oid : Int) (g : Order → Order)
    (hg : ∀ r, (g r).id = r.id) :
    (l.map (fun r => if r.id == oid then g r else r)).find? (fun r => r.id == oid)
      = (l.find? (fun r => r.id == oid)).map g := by
  refine find?_map_if (fun r => r.id == oid) g (fun a ha => ?_) l
  simpa [hg] using ha

/-- The checkpoint upsert touches only `order_enrollments`. -/
theorem upsert_enrollment_orders (db : DB) (t o c : Int) (u : Option Int)
    (st : String) (e : Option String) :
    (_upsert_order_enrollment db t o c u st e).orders = db.orders := by
  unfold _upsert_order_enrollment
  split <;> rfl

/-- The user-map upsert touches only `user_map`. -/
theorem upsert_user_map_orders (db : DB) (t : Int) (em : String) (u : Int) :
    (_upsert_user_map db t em u).orders = db.orders := by
  unfold _upsert_user_map
  split <;> rfl

/-- The user-map upsert touches only `user_map`. -/
theorem upsert_user_map_enrollments (db : DB) (t : Int) (em : String) (u : Int) :
    (_upsert_user_map db t em u).order_enrollments = db.order_enrollments := by
  unfold _upsert_user_map
  split <;> rfl

/-- The user-map upsert touches only `user_map`. -/
theorem upsert_user_map_courses (db : DB) (t : Int) (em : String) (u : Int) :
    (_upsert_user_map db t em u).product_courses = db.product_courses := by
  unfold _upsert_user_map
  split <;> rfl

/-- The enrollment loop never writes to `orders`. -/
theorem enrollLoop_orders (lms : LMS) (t o uid : Int) (already : List Int) :
    ∀ (cids : List Int) (db : DB) (en sk : List Int),
      (enrollLoop lms t o uid already cids db en sk).db.orders = db.orders := by
  intro cids
  induction cids with
  | nil => intro db en sk; rfl
  | cons c rest ih =>
    intro db en sk
    unfold enrollLoop
    by_cases hc : already.contains c
    · simp only [hc, if_true]
      exact ih db en (sk ++ [c])
    · simp only [hc, if_false, Bool.false_eq_true]
      cases henroll : lms.enroll uid c with
      | ok _ => simp only [henroll]; rw [ih, upsert_enrollment_orders, upsert_enrollment_orders]
      | error e => simp only [henroll]; rw [upsert_enrollment_orders, upsert_enrollment_orders]

/-- The post-user-resolution part of the saga never writes to `orders`. -/
theorem afterUser_orders (lms : LMS) (db : DB) (t : Int) (em : String)
    (p o uid : Int) (created : Bool) :
    (afterUser lms db t em p o uid created).db.orders = db.orders := by
  unfold afterUser
  by_cases hempty : (_get_product_course_ids (_upsert_user_map db t em uid) t p).isEmpty
  · simp only [hempty, if_true]
    exact upsert_user_map_orders db t em uid
  · simp only [hempty, if_false, Bool.false_eq_true]
    by_cases hok : (enrollLoop lms t o uid
        (_get_already_enrolled_courses (_upsert_user_map db t em uid) o)
        (_get_product_course_ids (_upsert_user_map db t em uid) t p)
        (_upsert_user_map db t em uid) [] []).ok
    · simp only [hok, if_true]
      rw [enrollLoop_orders, upsert_user_map_orders]
    · simp only [hok, if_false, Bool.false_eq_true]
      rw [enrollLoop_orders, upsert_user_map_orders]

/-- The fulfillment saga never writes to `orders`: the order-status
transition is owned by the webhook handler, not the saga. -/
theorem saga_orders (lms : LMS) (db : DB) (t : Int) (be : String) (p o : Int) :
    (_ensure_user_and_enroll lms db t be p o).db.orders = db.orders := by
  simp only [_ensure_user_and_enroll]
  split
  · rfl
  · split
    · rfl
    · split
      · simpa using afterUser_orders lms db t (pyLower (pyStrip be)) p o _ false
      · split
        · rfl
        · simpa using afterUser_orders lms db t (pyLower (pyStrip be)) p o _ true

/-- `find?` for the (order, course) key after a checkpoint upsert with a
concrete user id returns exactly the upserted row. -/
theorem upsert_enrollment_find (db : DB) (t o c : Int) (u : Int) (st : String)
    (e : Option String) :
    ((_upsert_order_enrollment db t o c (some u) st e).order_enrollments.find?
        (fun r => r.order_id == o && r.moodle_course_id == c))
      = some ⟨t, o, c, some u, st, e.map (fun s => pyTake 2000 s)⟩ := by
  unfold _upsert_order_enrollment
  by_cases h : db.order_enrollments.any (fun r => r.order_id == o && r.moodle_course_id == c)
  · simp only [h, if_true]
    rw [find?_map_if (fun (r : EnrollmentRow) => r.order_id == o && r.moodle_course_id == c)
      (fun r => ({ tenant_id := t, order_id := r.order_id,
                   moodle_course_id := r.moodle_course_id,
                   moodle_user_id := some u, status := st,
                   error := e.map (fun s => pyTake 2000 s) } : EnrollmentRow))
      (fun a ha => ha)]
    obtain ⟨r0, hr0⟩ := Option.isSome_iff_exists.mp
      (List.find?_isSome.mpr (List.any_eq_true.mp h))
    have hp := List.find?_some hr0
    obtain ⟨f1, f2, f3, f4, f5, f6⟩ := r0
    simp only [Bool.and_eq_true, beq_iff_eq] at hp
    simp [hr0, hp.1, hp.2]
  · simp only [h, if_false, Bool.false_eq_true]
    have hnone : db.order_enrollments.find?
        (fun r => r.order_id == o && r.moodle_course_id == c) = none := by
      rw [List.find?_eq_none]
      intro x hx hpx
      exact absurd (List.any_eq_true.mpr ⟨x, hx, hpx⟩) h
    rw [List.find?_append, hnone]
    simp [List.find?]

/-- No LMS enrollment call is ever made for a course in the
already-enrolled set. -/
theorem enrollLoop_no_call (lms : LMS) (t o uid : Int) (already : List Int) :
    ∀ (cids : List Int) (db : DB) (en sk : List Int) (c : Int),
      already.contains c = true →
      Ev.enrollCall uid c ∉ (enrollLoop lms t o uid already cids db en sk).tr := by
  intro cids
  induction cids with
  | nil => intro db en sk c hc; simp [enrollLoop]
  | cons x rest ih =>
    intro db en sk c hc
    have hcx : ¬(already.contains x = true) → c ≠ x := by
      intro hx hh
      rw [hh] at hc
      exact hx hc
    unfold enrollLoop
    by_cases hx : already.contains x = true
    · simp only [hx, if_true]
      exact ih _ _ _ c hc
    · simp only [hx, if_false, Bool.false_eq_true]
      cases he : lms.enroll uid x with
      | ok u =>
        have hne := hcx hx
        have hrec := ih (_upsert_order_enrollment
            (_upsert_order_enrollment db t o x (some uid) "attempt" none)
            t o x (some uid) "enrolled" none) (en ++ [x]) sk c hc
        simp only [he]
        simp [hne, hrec]
      | error e =>
        have hne := hcx hx
        simp only [he]
        simp [hne]

/-- When every remaining course enrolls successfully, the loop succeeds,
partitions the course list into enrolled (not yet done) and skipped
(already done) in list order, and its trace is the concatenation, over
the remaining courses in list order, of
attempt-checkpoint / LMS-call / enrolled-checkpoint segments. -/
theorem enrollLoop_all_ok (lms : LMS) (t o uid : Int) (already : List Int) :
    ∀ (cids : List Int) (db : DB) (en sk : List Int),
      (∀ x ∈ cids, already.contains x = false → lms.enroll uid x = Except.ok ()) →
      (enrollLoop lms t o uid already cids db en sk).ok = true ∧
      (enrollLoop lms t o uid already cids db en sk).msg = none ∧
      (enrollLoop lms t o uid already cids db en sk).enrolled
        = en ++ cids.filter (fun x => !already.contains x) ∧
      (enrollLoop lms t o uid already cids db en sk).skipped
        = sk ++ cids.filter (fun x => already.contains x) ∧
      (enrollLoop lms t o uid already cids db en sk).tr
        = (cids.filter (fun x => !already.contains x)).flatMap
            (fun c => [Ev.upsertLog c "attempt", Ev.enrollCall uid c,
                       Ev.upsertLog c "enrolled"]) := by
  intro cids
  induction cids with
  | nil => intro db en sk _h; simp [enrollLoop]
  | cons x rest ih =>
    intro db en sk h
    unfold enrollLoop
    by_cases hx : already.contains x = true
    · have hmem : x ∈ already := by simpa using hx
      simp only [hx, if_true]
      have hrec := ih db en (sk ++ [x]) (fun y hy hyc => h y (List.mem_cons_of_mem _ hy) hyc)
      refine ⟨hrec.1, hrec.2.1, ?_, ?_, ?_⟩
      · simp [hrec.2.2.1, List.filter_cons, hmem]
      · simp [hrec.2.2.2.1, List.filter_cons, hmem]
      · simp [hrec.2.2.2.2, List.filter_cons, hmem]
    · have hxf : already.contains x = false := by
        cases hv : already.contains x
        · rfl
        · exact absurd hv hx
      have hnm : x ∉ already := by simpa using hxf
      have hok := h x (List.mem_cons_self _ _) hxf
      simp only [hx, if_false, Bool.false_eq_true, hok]
      have hrec := ih (_upsert_order_enrollment
          (_upsert_order_enrollment db t o x (some uid) "attempt" none)
          t o x (some uid) "enrolled" none) (en ++ [x]) sk
        (fun y hy hyc => h y (List.mem_cons_of_mem _ hy) hyc)
      refine ⟨hrec.1, hrec.2.1, ?_, ?_, ?_⟩
      · simp [hrec.2.2.1, List.filter_cons, hnm]
      · simp [hrec.2.2.2.1, List.filter_cons, hnm]
      · simp [hrec.2.2.2.2, List.filter_cons, hnm]

/-- When the remaining courses before `c` (in list order) all enroll
successfully and enrolling into `c` raises error `e`, the loop aborts at
`c`: it reports failure with message `e`, the courses enrolled so far and
the courses skipped so far; its trace ends with the
attempt-checkpoint / LMS-call / failed-checkpoint segment of `c` and
contains nothing for the courses after `c`; and the checkpoint row of
`(o, c)` in the resulting database is 'failed' with the truncated error
text. -/
theorem enrollLoop_fail (lms : LMS) (t o uid : Int) (already : List Int) (c : Int)
    (e : String) :
    ∀ (s1 s2 : List Int) (db : DB) (en sk : List Int),
      (∀ x ∈ s1, already.contains x = false → lms.enroll uid x = Except.ok ()) →
      already.contains c = false →
      lms.enroll uid c = Except.error e →
      (enrollLoop lms t o uid already (s1 ++ c :: s2) db en sk).ok = false ∧
      (enrollLoop lms t o uid already (s1 ++ c :: s2) db en sk).msg = some e ∧
      (enrollLoop lms t o uid already (s1 ++ c :: s2) db en sk).enrolled
        = en ++ s1.filter (fun x => !already.contains x) ∧
      (enrollLoop lms t o uid already (s1 ++ c :: s2) db en sk).skipped
        = sk ++ s1.filter (fun x => already.contains x) ∧
      (enrollLoop lms t o uid already (s1 ++ c :: s2) db en sk).tr
        = (s1.filter (fun x => !already.contains x)).flatMap
            (fun y => [Ev.upsertLog y "attempt", Ev.enrollCall uid y,
                       Ev.upsertLog y "enrolled"])
          ++ [Ev.upsertLog c "attempt", Ev.enrollCall uid c, Ev.upsertLog c "failed"] ∧
      ((enrollLoop lms t o uid already (s1 ++ c :: s2) db en sk).db.order_enrollments.find?
          (fun r => r.order_id == o && r.moodle_course_id == c))
        = some ⟨t, o, c, some uid, "failed", some (pyTake 2000 e)⟩ := by
  intro s1
  induction s1 with
  | nil =>
    intro s2 db en sk _h hc he
    simp only [List.nil_append]
    unfold enrollLoop
    simp only [hc, if_false, Bool.false_eq_true, he]
    refine ⟨by simp, by simp, by simp, by simp, by simp, ?_⟩
    exact upsert_enrollment_find _ t o c uid "failed" (some e)
  | cons x rest ih =>
    intro s2 db en sk h hc he
    simp only [List.cons_append]
    unfold enrollLoop
    by_cases hx : already.contains x = true
    · have hmem : x ∈ already := by simpa using hx
      simp only [hx, if_true]
      have hrec := ih s2 db en (sk ++ [x]) (fun y hy hyc => h y (List.mem_cons_of_mem _ hy) hyc)
        hc he
      refine ⟨hrec.1, hrec.2.1, ?_, ?_, ?_, hrec.2.2.2.2.2⟩
      · simp [hrec.2.2.1, List.filter_cons, hmem]
      · simp [hrec.2.2.2.1, List.filter_cons, hmem]
      · simp [hrec.2.2.2.2.1, List.filter_cons, hmem]
    · have hxf : already.contains x = false := by
        cases hv : already.contains x
        · rfl
        · exact absurd hv hx
      have hnm : x ∉ already := by simpa using hxf
      have hok := h x (List.mem_cons_self _ _) hxf
      simp only [hx, if_false, Bool.false_eq_true, hok]
      have hrec := ih s2 (_upsert_order_enrollment
          (_upsert_order_enrollment db t o x (some uid) "attempt" none)
          t o x (some uid) "enrolled" none) (en ++ [x]) sk
        (fun y hy hyc => h y (List.mem_cons_of_mem _ hy) hyc) hc he
      refine ⟨hrec.1, hrec.2.1, ?_, ?_, ?_, hrec.2.2.2.2.2⟩
      · simp [hrec.2.2.1, List.filter_cons, hnm]
      · simp [hrec.2.2.2.1, List.filter_cons, hnm]
      · simp [hrec.2.2.2.2.1, List.filter_cons, hnm]

/-- The user-map upsert does not change which courses are linked to a
product. -/
theorem course_ids_user_map (db : DB) (t : Int) (em : String) (u : Int) (t2 p : Int) :
    _get_product_course_ids (_upsert_user_map db t em u) t2 p
      = _get_product_course_ids db t2 p := by
  unfold _get_product_course_ids
  rw [upsert_user_map_courses]

/-- The user-map upsert does not change the enrollment log. -/
theorem already_user_map (db : DB) (t : Int) (em : String) (u : Int) (o : Int) :
    _get_already_enrolled_courses (_upsert_user_map db t em u) o
      = _get_already_enrolled_courses db o := by
  unfold _get_already_enrolled_courses
  rw [upsert_user_map_enrollments]

/-- Reduction of the saga on the found-user path: when Moodle is
configured and `findUser` returns an existing (non-zero) user id, the
saga is the post-user part with `created = false`, with the find-user
call prepended to the trace. -/
theorem saga_reduce (lms : LMS) (db : DB) (t : Int) (be : String) (p o uid : Int)
    (hm : (_get_tenant_moodle db t).isSome)
    (hf : lms.findUser (pyLower (pyStrip be)) = Except.ok (some uid))
    (huid : uid ≠ 0) :
    _ensure_user_and_enroll lms db t be p o =
      ⟨(afterUser lms db t (pyLower (pyStrip be)) p o uid false).res,
       (afterUser lms db t (pyLower (pyStrip be)) p o uid false).db,
       Ev.findUser (pyLower (pyStrip be)) :: (afterUser lms db t (pyLower (pyStrip be)) p o uid false).tr⟩ := by
  obtain ⟨cfg, hcfg⟩ := Option.isSome_iff_exists.mp hm
  simp only [_ensure_user_and_enroll, hcfg, hf, truthyId, huid, if_false]

/-- The observable behavior of the post-user part of the saga: no LMS
call for already-enrolled courses; full success when every remaining
course enrolls; abort at the first failing course with correct
partitioning, trace and failed checkpoint. -/
theorem afterUser_facts (lms : LMS) (db : DB) (t : Int) (em : String)
    (p o uid : Int) (created : Bool)
    (hne : _get_product_course_ids db t p ≠ []) :
    (∀ c, (_get_already_enrolled_courses db o).contains c = true →
       Ev.enrollCall uid c ∉ (afterUser lms db t em p o uid created).tr) ∧
    ((∀ x ∈ _get_product_course_ids db t p,
        (_get_already_enrolled_courses db o).contains x = false →
        lms.enroll uid x = Except.ok ()) →
      (afterUser lms db t em p o uid created).res.ok = true ∧
      (afterUser lms db t em p o uid created).res.enrolled_courses
        = (_get_product_course_ids db t p).filter
            (fun x => !(_get_already_enrolled_courses db o).contains x) ∧
      (afterUser lms db t em p o uid created).res.skipped_courses
        = (_get_product_course_ids db t p).filter
            (fun x => (_get_already_enrolled_courses db o).contains x) ∧
      (afterUser lms db t em p o uid created).tr
        = Ev.userMapUpsert em ::
          ((_get_product_course_ids db t p).filter
              (fun x => !(_get_already_enrolled_courses db o).contains x)).flatMap
            (fun y => [Ev.upsertLog y "attempt", Ev.enrollCall uid y,
                       Ev.upsertLog y "enrolled"])) ∧
    (∀ (s1 : List Int) (c : Int) (s2 : List Int) (e : String),
      _get_product_course_ids db t p = s1 ++ c :: s2 →
      (∀ x ∈ s1, (_get_already_enrolled_courses db o).contains x = false →
        lms.enroll uid x = Except.ok ()) →
      (_get_already_enrolled_courses db o).contains c = false →
      lms.enroll uid c = Except.error e →
      (afterUser lms db t em p o uid created).res.ok = false ∧
      (afterUser lms db t em p o uid created).res.message = some e ∧
      (afterUser lms db t em p o uid created).res.enrolled_courses
        = s1.filter (fun x => !(_get_already_enrolled_courses db o).contains x) ∧
      (afterUser lms db t em p o uid created).res.skipped_courses
        = s1.filter (fun x => (_get_already_enrolled_courses db o).contains x) ∧
      (afterUser lms db t em p o uid created).tr
        = Ev.userMapUpsert em ::
          ((s1.filter (fun x => !(_get_already_enrolled_courses db o).contains x)).flatMap
              (fun y => [Ev.upsertLog y "attempt", Ev.enrollCall uid y,
                         Ev.upsertLog y "enrolled"])
            ++ [Ev.upsertLog c "attempt", Ev.enrollCall uid c, Ev.upsertLog c "failed"]) ∧
      ((afterUser lms db t em p o uid created).db.order_enrollments.find?
          (fun r => r.order_id == o && r.moodle_course_id == c))
        = some ⟨t, o, c, some uid, "failed", some (pyTake 2000 e)⟩) := by
  have hcm := course_ids_user_map db t em uid t p
  have ham := already_user_map db t em uid o
  have hempty : (_get_product_course_ids (_upsert_user_map db t em uid) t p).isEmpty = false := by
    rw [hcm]
    cases hcc : _get_product_course_ids db t p with
    | nil => exact absurd hcc hne
    | cons a l => rfl
  unfold afterUser
  simp only [hcm, ham, hempty, Bool.false_eq_true, if_false]
  refine ⟨?_, ?_, ?_⟩
  · intro c hc
    have hnc := enrollLoop_no_call lms t o uid (_get_already_enrolled_courses db o)
      (_get_product_course_ids db t p) (_upsert_user_map db t em uid) [] [] c hc
    by_cases hok : (enrollLoop lms t o uid (_get_already_enrolled_courses db o)
        (_get_product_course_ids db t p) (_upsert_user_map db t em uid) [] []).ok = true
    · simp [hok, hnc, hne]
    · simp [hok, hnc, hne]
  · intro hall
    have hloop := enrollLoop_all_ok lms t o uid (_get_already_enrolled_courses db o)
      (_get_product_course_ids db t p) (_upsert_user_map db t em uid) [] [] hall
    refine ⟨by simp [hne, hloop.1], by simp [hne, hloop.1, hloop.2.2.1],
      by simp [hne, hloop.1, hloop.2.2.2.1], by simp [hne, hloop.1, hloop.2.2.2.2]⟩
  · intro s1 c s2 e hsplit hpre hc he
    have hne2 : s1 ++ c :: s2 ≠ [] := by simp
    rw [hsplit]
    have hfail := enrollLoop_fail lms t o uid (_get_already_enrolled_courses db o) c e
      s1 s2 (_upsert_user_map db t em uid) [] [] hpre hc he
    refine ⟨by simp [hne2, hfail.1], by simp [hne2, hfail.1, hfail.2.1],
      by simp [hne2, hfail.1, hfail.2.2.1], by simp [hne2, hfail.1, hfail.2.2.2.1],
      by simp [hne2, hfail.1, hfail.2.2.2.2.1], by simp [hne2, hfail.1, hfail.2.2.2.2.2]⟩

/-- The linked course list is de-duplicated and sorted ascending. -/
theorem course_ids_sorted (db : DB) (t p : Int) :
    List.Sorted (· ≤ ·) (_get_product_course_ids db t p) := by
  unfold _get_product_course_ids
  exact List.sorted_insertionSort (· ≤ ·) _

/-- `exDb` for a resume run: course 101 is already 'enrolled' for order
42 in the checkpoint log. -/
def exDbResume : DB :=
  { exDb "paid" (some "buyer@example.com") with
    order_enrollments := [⟨1, 42, 101, some 9, "enrolled", none⟩] }

/-- C3: on every saga invocation that reaches the enrollment loop, the
course ids already marked 'enrolled' in the log for this order are never
the target of an LMS enrollment call; the linked course list is processed
in ascending order (it is sorted, and the loop trace is its in-order
concatenation of attempt-checkpoint / LMS call / result-checkpoint
segments); when every remaining course enrolls, the already-done courses
are reported in `skipped_courses`; and on the first enrollment failure
the checkpoint of that course is upserted to 'failed' with the (2000-char
truncated) error text, the remaining courses are never touched (the trace
ends at the failing course), and the saga returns ok=false carrying the
courses successfully enrolled so far. -/
theorem saga_resume_skip_ascending_abort
    (lms : LMS) (db : DB) (t : Int) (be : String) (p o uid : Int)
    (hm : (_get_tenant_moodle db t).isSome)
    (hf : lms.findUser (pyLower (pyStrip be)) = Except.ok (some uid))
    (huid : uid ≠ 0)
    (hne : _get_product_course_ids db t p ≠ []) :
    List.Sorted (· ≤ ·) (_get_product_course_ids db t p) ∧
    (∀ c, (_get_already_enrolled_courses db o).contains c = true →
      Ev.enrollCall uid c ∉ (_ensure_user_and_enroll lms db t be p o).tr) ∧
    ((∀ x ∈ _get_product_course_ids db t p,
        (_get_already_enrolled_courses db o).contains x = false →
        lms.enroll uid x = Except.ok ()) →
      (_ensure_user_and_enroll lms db t be p o).res.ok = true ∧
      (_ensure_user_and_enroll lms db t be p o).res.enrolled_courses
        = (_get_product_course_ids db t p).filter
            (fun x => !(_get_already_enrolled_courses db o).contains x) ∧
      (_ensure_user_and_enroll lms db t be p o).res.skipped_courses
        = (_get_product_course_ids db t p).filter
            (fun x => (_get_already_enrolled_courses db o).contains x) ∧
      (_ensure_user_and_enroll lms db t be p o).tr
        = Ev.findUser (pyLower (pyStrip be)) :: Ev.userMapUpsert (pyLower (pyStrip be)) ::
          ((_get_product_course_ids db t p).filter
              (fun x => !(_get_already_enrolled_courses db o).contains x)).flatMap
            (fun y => [Ev.upsertLog y "attempt", Ev.enrollCall uid y,
                       Ev.upsertLog y "enrolled"])) ∧
    (∀ (s1 : List Int) (c : Int) (s2 : List Int) (e : String),
      _get_product_course_ids db t p = s1 ++ c :: s2 →
      (∀ x ∈ s1, (_get_already_enrolled_courses db o).contains x = false →
        lms.enroll uid x = Except.ok ()) →
      (_get_already_enrolled_courses db o).contains c = false →
      lms.enroll uid c = Except.error e →
      (_ensure_user_and_enroll lms db t be p o).res.ok = false ∧
      (_ensure_user_and_enroll lms db t be p o).res.message = some e ∧
      (_ensure_user_and_enroll lms db t be p o).res.enrolled_courses
        = s1.filter (fun x => !(_get_already_enrolled_courses db o).contains x) ∧
      (_ensure_user_and_enroll lms db t be p o).res.skipped_courses
        = s1.filter (fun x => (_get_already_enrolled_courses db o).contains x) ∧
      (_ensure_user_and_enroll lms db t be p o).tr
        = Ev.findUser (pyLower (pyStrip be)) :: Ev.userMapUpsert (pyLower (pyStrip be)) ::
          ((s1.filter (fun x => !(_get_already_enrolled_courses db o).contains x)).flatMap
              (fun y => [Ev.upsertLog y "attempt", Ev.enrollCall uid y,
                         Ev.upsertLog y "enrolled"])
            ++ [Ev.upsertLog c "attempt", Ev.enrollCall uid c, Ev.upsertLog c "failed"]) ∧
      ((_ensure_user_and_enroll lms db t be p o).db.order_enrollments.find?
          (fun r => r.order_id == o && r.moodle_course_id == c))
        = some ⟨t, o, c, some uid, "failed", some (pyTake 2000 e)⟩) := by
  have hred := saga_reduce lms db t be p o uid hm hf huid
  have hfacts := afterUser_facts lms db t (pyLower (pyStrip be)) p o uid false hne
  rw [hred]
  refine ⟨course_ids_sorted db t p, ?_, ?_, ?_⟩
  · intro c hc
    simp [hfacts.1 c hc]
  · intro hall
    have h3 := hfacts.2.1 hall
    exact ⟨h3.1, h3.2.1, h3.2.2.1, by simp [h3.2.2.2]⟩
  · intro s1 c s2 e hsplit hpre hc he
    have h4 := hfacts.2.2 s1 c s2 e hsplit hpre hc he
    exact ⟨h4.1, h4.2.1, h4.2.2.1, h4.2.2.2.1, by simp [h4.2.2.2.2.1], h4.2.2.2.2.2⟩

/-- Witness for C3, on the spec's resume scenario: order 42 has courses
101, 102, 103 linked, 101 already 'enrolled'; a second saga run skips
101 (no LMS call for it), enrolls 102 and 103, and succeeds. -/
theorem saga_resume_skip_ascending_abort_witness :
    (_ensure_user_and_enroll exLmsOk exDbResume 1 "Buyer@Example.com" 7 42).res.ok = true ∧
    (_ensure_user_and_enroll exLmsOk exDbResume 1 "Buyer@Example.com" 7 42).res.enrolled_courses
      = [102, 103] ∧
    (_ensure_user_and_enroll exLmsOk exDbResume 1 "Buyer@Example.com" 7 42).res.skipped_courses
      = [101] ∧
    Ev.enrollCall 9 101 ∉
      (_ensure_user_and_enroll exLmsOk exDbResume 1 "Buyer@Example.com" 7 42).tr := by
  have h := saga_resume_skip_ascending_abort exLmsOk exDbResume 1 "Buyer@Example.com" 7 42 9
    (by decide) rfl (by decide) (by decide)
  have h3 := h.2.2.1 (fun x _hx _hc => rfl)
  exact ⟨h3.1, h3.2.1.trans (by decide), h3.2.2.1.trans (by decide), h.2.1 101 (by decide)⟩

/-- Reduction of the outer webhook guards: header present, JSON parses,
an order id is extracted, the order loads, the tenant has a webhook
secret, and the signature verifies. -/
theorem webhook_outer_reduce (lms : LMS) (req : WebhookReq) (db : DB) (ord : Order)
    (hhdr : req.sig_header.getD "" ≠ "")
    (hjson : req.json_ok = true)
    (hguess : _extract_order_id_from_event req.objGuess.metadata_order_id
        req.objGuess.client_reference_id = some ord.id)
    (hid0 : ord.id ≠ 0)
    (hload : _get_order_by_id db ord.id = some ord)
    (hsecret : (_get_tenant_stripe db ord.tenant_id).2.getD "" ≠ "")
    (hsig : req.sigOutcome = SigOutcome.ok) :
    stripe_webhook lms req db = handleVerified lms req db ord := by
  unfold stripe_webhook
  simp [hhdr, hjson, hguess, hid0, hload, hsecret, hsig]

/-- Reduction of the completed-branch match checks: session id present,
verified order id matches, stored session id absent or matching. -/
theorem handleCompleted_reduce (lms : LMS) (db : DB) (ord : Order) (obj : StripeObj)
    (sid : String)
    (hsid : strTruthy obj.id = some sid)
    (heid : _extract_order_id_from_event obj.metadata_order_id obj.client_reference_id
        = some ord.id)
    (hid0 : ord.id ≠ 0)
    (hsess : strTruthy ord.stripe_session_id = none ∨
      strTruthy ord.stripe_session_id = some sid) :
    handleCompleted lms db ord obj = completedStage2 lms db ord obj := by
  unfold handleCompleted
  rcases hsess with h | h <;> simp [hsid, heid, hid0, h]

/-- C1: delivering a verified completed-checkout event for an order whose
status is already 'fulfilled' (the duplicate passes the order-id and
session checks, its payment status is absent or 'paid', a buyer email
resolves and the order has a product) short-circuits at the replay check:
the handler acknowledges with 'Already fulfilled' and performs zero side
effects — the database is returned unchanged and the event trace is
empty (no order-row update, no enrollment-log write, no LMS call). -/
theorem webhook_fulfilled_replay_short_circuits
    (lms : LMS) (req : WebhookReq) (db : DB) (ord : Order) (sid : String)
    (hhdr : req.sig_header.getD "" ≠ "")
    (hjson : req.json_ok = true)
    (hguess : _extract_order_id_from_event req.objGuess.metadata_order_id
        req.objGuess.client_reference_id = some ord.id)
    (hid0 : ord.id ≠ 0)
    (hload : _get_order_by_id db ord.id = some ord)
    (hsecret : (_get_tenant_stripe db ord.tenant_id).2.getD "" ≠ "")
    (hsig : req.sigOutcome = SigOutcome.ok)
    (htype : req.event_type = "checkout.session.completed")
    (hsid : strTruthy req.obj.id = some sid)
    (heid : _extract_order_id_from_event req.obj.metadata_order_id
        req.obj.client_reference_id = some ord.id)
    (hsess : strTruthy ord.stripe_session_id = none ∨
      strTruthy ord.stripe_session_id = some sid)
    (hpay : paymentStatusOf req.obj = "" ∨ paymentStatusOf req.obj = "paid")
    (hemail : (finalEmailOf req.obj ord.buyer_email).isSome)
    (hprod : ord.product_id.isSome)
    (hful : ord.status = "fulfilled") :
    stripe_webhook lms req db =
      ⟨{ ok := true, message := some "Already fulfilled", order_id := some ord.id }, db, []⟩ := by
  rw [webhook_outer_reduce lms req db ord hhdr hjson hguess hid0 hload hsecret hsig]
  unfold handleVerified
  rw [if_pos htype, handleCompleted_reduce lms db ord req.obj sid hsid heid hid0 hsess]
  unfold completedStage2
  obtain ⟨femail, hfe⟩ := Option.isSome_iff_exists.mp hemail
  obtain ⟨pid, hpid⟩ := Option.isSome_iff_exists.mp hprod
  rcases hpay with h | h <;> simp [h, hfe, hpid, hful]

/-- Witness for C1: a duplicate completed-checkout delivery for the
already-fulfilled order 42 is acknowledged with zero side effects. -/
theorem webhook_fulfilled_replay_short_circuits_witness :
    stripe_webhook exLmsOk exReqCompleted (exDb "fulfilled" (some "buyer@example.com")) =
      ⟨{ ok := true, message := some "Already fulfilled", order_id := some 42 },
       exDb "fulfilled" (some "buyer@example.com"), []⟩ := by
  exact webhook_fulfilled_replay_short_circuits exLmsOk exReqCompleted
    (exDb "fulfilled" (some "buyer@example.com"))
    { id := 42, tenant_id := 1, product_id := some 7,
      buyer_email := some "buyer@example.com", stripe_session_id := some "cs_1",
      status := "fulfilled" } "cs_1"
    (by decide) rfl (by decide) (by decide) (by decide) (by decide) rfl rfl (by decide)
    (by decide) (Or.inr (by decide)) (Or.inr (by decide)) (by decide) (by decide) rfl

/-- A verified completed-checkout delivery whose event refers to order 42
but session `cs_OTHER`, mismatching the stored session `cs_1`. -/
def exReqSessionMismatch : WebhookReq :=
  { sig_header := some "t=1,v1=sig",
    objGuess := { id := some "cs_OTHER", metadata_order_id := some "42" },
    event_type := "checkout.session.completed",
    obj := { id := some "cs_OTHER", metadata_order_id := some "42",
             payment_status := some "paid",
             customer_details_email := some "buyer@example.com" } }

/-- C2: after signature verification, a completed-checkout event is
processed only when the order id re-extracted from the verified payload
equals the id of the order loaded in Phase 1 and, when the order stores a
session id, that stored id equals the verified event's session id: if the
verified order id is missing or different, or the stored session id is
present and different, the event is acknowledged (`ok`, `ignored`) and
dropped with no state mutation and no LMS call. -/
theorem webhook_order_session_mismatch_dropped
    (lms : LMS) (req : WebhookReq) (db : DB) (ord : Order) (sid : String)
    (hhdr : req.sig_header.getD "" ≠ "")
    (hjson : req.json_ok = true)
    (hguess : _extract_order_id_from_event req.objGuess.metadata_order_id
        req.objGuess.client_reference_id = some ord.id)
    (hid0 : ord.id ≠ 0)
    (hload : _get_order_by_id db ord.id = some ord)
    (hsecret : (_get_tenant_stripe db ord.tenant_id).2.getD "" ≠ "")
    (hsig : req.sigOutcome = SigOutcome.ok)
    (htype : req.event_type = "checkout.session.completed")
    (hsid : strTruthy req.obj.id = some sid)
    (hmism : (∀ eid, _extract_order_id_from_event req.obj.metadata_order_id
          req.obj.client_reference_id = some eid → eid = 0 ∨ eid ≠ ord.id) ∨
        (∃ dsid, strTruthy ord.stripe_session_id = some dsid ∧ dsid ≠ sid)) :
    (stripe_webhook lms req db).resp.ok = true ∧
    (stripe_webhook lms req db).resp.ignored = true ∧
    (stripe_webhook lms req db).db = db ∧
    (stripe_webhook lms req db).tr = [] := by
  have hred : stripe_webhook lms req db = handleCompleted lms db ord req.obj := by
    rw [webhook_outer_reduce lms req db ord hhdr hjson hguess hid0 hload hsecret hsig]
    unfold handleVerified
    rw [if_pos htype]
  rw [hred]
  unfold handleCompleted
  rcases hmism with hA | ⟨dsid, hd, hdne⟩
  · cases hext : _extract_order_id_from_event req.obj.metadata_order_id
        req.obj.client_reference_id with
    | none => simp [hsid, hext]
    | some eid =>
      have hcond := hA eid hext
      simp [hsid, hext, hcond]
  · cases hext : _extract_order_id_from_event req.obj.metadata_order_id
        req.obj.client_reference_id with
    | none => simp [hsid, hext]
    | some eid =>
      by_cases h0 : eid = 0 ∨ eid ≠ ord.id
      · simp [hsid, hext, h0]
      · simp [hsid, hext, h0, hd, hdne]

/-- Witness for C2: a session mismatch (stored `cs_1`, event `cs_OTHER`)
for order 42 is dropped with no mutation and no LMS call. -/
theorem webhook_order_session_mismatch_dropped_witness :
    (stripe_webhook exLmsOk exReqSessionMismatch
        (exDb "paid" (some "buyer@example.com"))).resp.ok = true ∧
    (stripe_webhook exLmsOk exReqSessionMismatch
        (exDb "paid" (some "buyer@example.com"))).resp.ignored = true ∧
    (stripe_webhook exLmsOk exReqSessionMismatch
        (exDb "paid" (some "buyer@example.com"))).db
      = exDb "paid" (some "buyer@example.com") ∧
    (stripe_webhook exLmsOk exReqSessionMismatch
        (exDb "paid" (some "buyer@example.com"))).tr = [] := by
  exact webhook_order_session_mismatch_dropped exLmsOk exReqSessionMismatch
    (exDb "paid" (some "buyer@example.com"))
    { id := 42, tenant_id := 1, product_id := some 7,
      buyer_email := some "buyer@example.com", stripe_session_id := some "cs_1",
      status := "paid" } "cs_OTHER"
    (by decide) rfl (by decide) (by decide) (by decide) (by decide) rfl rfl (by decide)
    (Or.inr ⟨"cs_1", by decide, by decide⟩)

/-- Looking up the order after `_set_order_paid_if_needed`: the found row
is the transformed one. -/
theorem get_order_set_paid (db : DB) (oid : Int) (em : Option String) (ord : Order)
    (h : _get_order_by_id db oid = some ord) :
    _get_order_by_id (_set_order_paid_if_needed db oid em) oid
      = some { ord with
          status := if ord.status = "fulfilled" then ord.status else "paid",
          buyer_email :=
            if ord.buyer_email.getD "" = "" ∧ em.isSome then em else ord.buyer_email } := by
  unfold _get_order_by_id at h ⊢
  unfold _set_order_paid_if_needed
  rw [find?_orders_update db.orders oid
    (fun r => { r with
      status := if r.status = "fulfilled" then r.status else "paid",
      buyer_email := if r.buyer_email.getD "" = "" ∧ em.isSome then em else r.buyer_email })
    (fun r => rfl), h]
  rfl

/-- Looking up the order after `_set_order_status`. -/
theorem get_order_set_status (db : DB) (oid : Int) (st : String) (ord : Order)
    (h : _get_order_by_id db oid = some ord) :
    _get_order_by_id (_set_order_status db oid st) oid = some { ord with status := st } := by
  unfold _get_order_by_id at h ⊢
  unfold _set_order_status
  rw [find?_orders_update db.orders oid (fun r => { r with status := st }) (fun r => rfl), h]
  rfl

/-- The saga leaves every order row unchanged. -/
theorem get_order_saga (lms : LMS) (db : DB) (t : Int) (be : String) (p o oid : Int) :
    _get_order_by_id (_ensure_user_and_enroll lms db t be p o).db oid
      = _get_order_by_id db oid := by
  unfold _get_order_by_id
  rw [saga_orders]

/-- Reduction of the completed branch down to the saga call, under all
the guards (payment ok, email resolves, product present, not yet
fulfilled). -/
theorem completedStage2_saga_branch (lms : LMS) (db : DB) (ord : Order)
    (obj : StripeObj) (femail : String) (pid : Int)
    (hpay : paymentStatusOf obj = "" ∨ paymentStatusOf obj = "paid")
    (hfe : finalEmailOf obj ord.buyer_email = some femail)
    (hpid : ord.product_id = some pid)
    (hnotful : ord.status ≠ "fulfilled") :
    completedStage2 lms db ord obj =
      ⟨{ ok := true, tenant_id := some ord.tenant_id, order_id := some ord.id,
         fulfillment := some (_ensure_user_and_enroll lms
           (_set_order_paid_if_needed db ord.id (some femail))
           ord.tenant_id femail pid ord.id).res },
       (if (_ensure_user_and_enroll lms
             (_set_order_paid_if_needed db ord.id (some femail))
             ord.tenant_id femail pid ord.id).res.ok
        then _set_order_status (_ensure_user_and_enroll lms
               (_set_order_paid_if_needed db ord.id (some femail))
               ord.tenant_id femail pid ord.id).db ord.id "fulfilled"
        else (_ensure_user_and_enroll lms
               (_set_order_paid_if_needed db ord.id (some femail))
               ord.tenant_id femail pid ord.id).db),
       (_ensure_user_and_enroll lms
         (_set_order_paid_if_needed db ord.id (some femail))
         ord.tenant_id femail pid ord.id).tr⟩ := by
  unfold completedStage2
  have hpayneg : ¬(paymentStatusOf obj ≠ "" ∧ paymentStatusOf obj ≠ "paid") := by
    rcases hpay with h | h <;> simp [h]
  rw [if_neg hpayneg]
  simp only [hfe, hpid]
  rw [if_neg hnotful]

/-- C4: the webhook handler sets the order's status to 'fulfilled' if and
only if the fulfillment saga reports overall success; when the saga
reports failure, the order's status is 'paid' (the saga itself never
touches the order row). -/
theorem webhook_fulfilled_iff_saga_ok
    (lms : LMS) (req : WebhookReq) (db : DB) (ord : Order) (sid : String)
    (femail : String) (pid : Int)
    (hhdr : req.sig_header.getD "" ≠ "")
    (hjson : req.json_ok = true)
    (hguess : _extract_order_id_from_event req.objGuess.metadata_order_id
        req.objGuess.client_reference_id = some ord.id)
    (hid0 : ord.id ≠ 0)
    (hload : _get_order_by_id db ord.id = some ord)
    (hsecret : (_get_tenant_stripe db ord.tenant_id).2.getD "" ≠ "")
    (hsig : req.sigOutcome = SigOutcome.ok)
    (htype : req.event_type = "checkout.session.completed")
    (hsid : strTruthy req.obj.id = some sid)
    (heid : _extract_order_id_from_event req.obj.metadata_order_id
        req.obj.client_reference_id = some ord.id)
    (hsess : strTruthy ord.stripe_session_id = none ∨
      strTruthy ord.stripe_session_id = some sid)
    (hpay : paymentStatusOf req.obj = "" ∨ paymentStatusOf req.obj = "paid")
    (hfe : finalEmailOf req.obj ord.buyer_email = some femail)
    (hpid : ord.product_id = some pid)
    (hnotful : ord.status ≠ "fulfilled") :
    (stripe_webhook lms req db).resp.fulfillment.isSome = true ∧
    ((_get_order_by_id (stripe_webhook lms req db).db ord.id).map (fun r => r.status))
      = some (if (((stripe_webhook lms req db).resp.fulfillment.map
                (fun r => r.ok)).getD false) = true
              then "fulfilled" else "paid") := by
  have hred : stripe_webhook lms req db = completedStage2 lms db ord req.obj := by
    rw [webhook_outer_reduce lms req db ord hhdr hjson hguess hid0 hload hsecret hsig]
    unfold handleVerified
    rw [if_pos htype, handleCompleted_reduce lms db ord req.obj sid hsid heid hid0 hsess]
  rw [hred, completedStage2_saga_branch lms db ord req.obj femail pid hpay hfe hpid hnotful]
  have hp1 := get_order_set_paid db ord.id (some femail) ord hload
  have hsaga := get_order_saga lms (_set_order_paid_if_needed db ord.id (some femail))
    ord.tenant_id femail pid ord.id ord.id
  by_cases hok : (_ensure_user_and_enroll lms
      (_set_order_paid_if_needed db ord.id (some femail))
      ord.tenant_id femail pid ord.id).res.ok = true
  · have hfix := get_order_set_status (_ensure_user_and_enroll lms
      (_set_order_paid_if_needed db ord.id (some femail))
      ord.tenant_id femail pid ord.id).db ord.id "fulfilled" _ (hsaga.trans hp1)
    refine ⟨rfl, ?_⟩
    simp [hok, hfix]
  · refine ⟨rfl, ?_⟩
    simp [hok, hsaga, hp1, hnotful]

/-- Witness for C4, on the partial-failure scenario: course 102 fails, so
the saga reports failure and order 42 ends 'paid', not 'fulfilled'. -/
theorem webhook_fulfilled_iff_saga_ok_witness :
    (stripe_webhook exLmsFail102 exReqCompleted (exDb "pending" none)).resp.fulfillment.isSome
        = true ∧
    ((_get_order_by_id (stripe_webhook exLmsFail102 exReqCompleted
          (exDb "pending" none)).db 42).map (fun r => r.status))
      = some (if (((stripe_webhook exLmsFail102 exReqCompleted
              (exDb "pending" none)).resp.fulfillment.map (fun r => r.ok)).getD false) = true
              then "fulfilled" else "paid") := by
  exact webhook_fulfilled_iff_saga_ok exLmsFail102 exReqCompleted (exDb "pending" none)
    ⟨42, 1, some 7, none, some "cs_1", "pending", none⟩ "cs_1" "buyer@example.com" 7
    (by decide) rfl (by decide) (by decide) (by decide) (by decide) rfl rfl (by decide)
    (by decide) (Or.inr (by decide)) (Or.inr (by decide)) (by decide) (by decide) (by decide)

/-- Row relation: a row that was 'paid' is never 'expired' afterwards. -/
def PaidSafe (o o2 : Order) : Prop := o.status = "paid" → o2.status ≠ "expired"

/-- Row relation characterizing `_mark_order_expired`: paid rows stay
paid, and a row is 'expired' afterwards exactly when it already was, or
it matches the (tenant, session) key and was in neither 'paid' nor
'fulfilled' (nor 'expired'). -/
def ExpiredMark (t : Int) (sid : String) (o o2 : Order) : Prop :=
  (o.status = "paid" → o2.status = "paid") ∧
  (o2.status = "expired" ↔ (o.status = "expired" ∨
    (o.tenant_id = t ∧ o.stripe_session_id = some sid ∧
     o.status ≠ "paid" ∧ o.status ≠ "fulfilled" ∧ o.status ≠ "expired")))

/-- `_mark_order_expired` satisfies `ExpiredMark` row-wise. -/
theorem mark_expired_forall2 (db : DB) (t : Int) (sid : String) :
    List.Forall₂ (ExpiredMark t sid) db.orders (_mark_order_expired db t sid).orders := by
  unfold _mark_order_expired
  refine forall2_map_self _ _ (fun r => ?_) db.orders
  unfold ExpiredMark
  by_cases hcond : ((r.tenant_id == t) = true ∧ (r.stripe_session_id == some sid) = true ∧
      ¬(r.status = "paid" ∨ r.status = "expired" ∨ r.status = "fulfilled"))
  · rw [if_pos hcond]
    constructor
    · intro hp
      exact absurd (Or.inl hp) hcond.2.2
    · simp only [beq_iff_eq] at hcond
      constructor
      · intro _
        exact Or.inr ⟨hcond.1, hcond.2.1,
          fun hh => hcond.2.2 (Or.inl hh),
          fun hh => hcond.2.2 (Or.inr (Or.inr hh)),
          fun hh => hcond.2.2 (Or.inr (Or.inl hh))⟩
      · intro _
        rfl
  · rw [if_neg hcond]
    refine ⟨fun hp => hp, ?_⟩
    constructor
    · intro he
      exact Or.inl he
    · intro hr
      rcases hr with he | ⟨ht, hs, _hnp, _hnf, hne⟩
      · exact he
      · exact absurd ⟨by simp [ht], by simp [hs],
          fun hd => by rcases hd with h | h | h <;> simp_all⟩ hcond

/-- `PaidSafe` row relation via a row function that keeps paid rows
non-expired. -/
theorem forall2_paid_safe (l : List Order) (f : Order → Order)
    (h : ∀ r, r.status = "paid" → (f r).status ≠ "expired") :
    List.Forall₂ PaidSafe l (l.map f) :=
  forall2_map_self PaidSafe f (fun a => h a) l

/-- `PaidSafe` is reflexive on any list of rows. -/
theorem forall2_paid_safe_refl (l : List Order) : List.Forall₂ PaidSafe l l :=
  forall2_self PaidSafe (fun a hp => by rw [hp]; decide) l

/-- The mark-paid / saga / mark-fulfilled sequence keeps paid rows out
of 'expired'. -/
theorem saga_then_fulfill_paid_safe (lms : LMS) (db : DB) (oid : Int) (em : Option String)
    (t2 : Int) (be : String) (p o : Int) (b : Bool) :
    List.Forall₂ PaidSafe db.orders
      ((if b then
          _set_order_status (_ensure_user_and_enroll lms
            (_set_order_paid_if_needed db oid em) t2 be p o).db oid "fulfilled"
        else (_ensure_user_and_enroll lms
            (_set_order_paid_if_needed db oid em) t2 be p o).db).orders) := by
  by_cases hb : b = true
  · rw [if_pos hb]
    have h1 : (_set_order_status (_ensure_user_and_enroll lms
          (_set_order_paid_if_needed db oid em) t2 be p o).db oid "fulfilled").orders
        = (db.orders.map (fun r =>
            if r.id == oid then
              { r with
                status := if r.status = "fulfilled" then r.status else "paid",
                buyer_email :=
                  if r.buyer_email.getD "" = "" ∧ em.isSome then em else r.buyer_email }
            else r)).map (fun r =>
              if r.id == oid then { r with status := "fulfilled" } else r) := by
      unfold _set_order_status
      rw [saga_orders]
      rfl
    rw [h1, List.map_map]
    refine forall2_paid_safe db.orders _ (fun r hp => ?_)
    by_cases hid : (r.id == oid) = true <;> simp [Function.comp, hid, hp]
  · rw [if_neg hb, saga_orders]
    refine forall2_paid_safe db.orders _ (fun r hp => ?_)
    by_cases hid : (r.id == oid) = true <;> simp [hid, hp]

/-- The completed-event branch keeps paid rows out of 'expired'. -/
theorem completedStage2_paid_safe (lms : LMS) (db : DB) (ord : Order) (obj : StripeObj) :
    List.Forall₂ PaidSafe db.orders (completedStage2 lms db ord obj).db.orders := by
  simp only [completedStage2]
  split
  · exact forall2_paid_safe_refl db.orders
  · split
    · exact forall2_paid_safe_refl db.orders
    · split
      · exact forall2_paid_safe_refl db.orders
      · split
        · exact forall2_paid_safe_refl db.orders
        · apply saga_then_fulfill_paid_safe

/-- The verified-event dispatch keeps paid rows out of 'expired'. -/
theorem handleVerified_paid_safe (lms : LMS) (req : WebhookReq) (db : DB) (ord : Order) :
    List.Forall₂ PaidSafe db.orders (handleVerified lms req db ord).db.orders := by
  unfold handleVerified handleCompleted
  split
  · split
    · exact forall2_paid_safe_refl db.orders
    · split
      · exact forall2_paid_safe_refl db.orders
      · split
        · exact forall2_paid_safe_refl db.orders
        · split
          · split
            · exact forall2_paid_safe_refl db.orders
            · exact completedStage2_paid_safe lms db ord req.obj
          · exact completedStage2_paid_safe lms db ord req.obj
  · split
    · split
      next sid _heq =>
        refine forall2_paid_safe db.orders _ (fun r hp => ?_)
        by_cases hc : ((r.tenant_id == ord.tenant_id) = true ∧
            (r.stripe_session_id == some sid) = true ∧
            ¬(r.status = "paid" ∨ r.status = "expired" ∨ r.status = "fulfilled"))
        · exact absurd (Or.inl hp) hc.2.2
        · rw [if_neg hc, hp]
          decide
      next _heq => exact forall2_paid_safe_refl db.orders
    · exact forall2_paid_safe_refl db.orders

/-- The whole webhook handler keeps paid rows out of 'expired', on every
input: a 'paid' order is never moved to 'expired'. -/
theorem webhook_paid_safe (lms : LMS) (req : WebhookReq) (db : DB) :
    List.Forall₂ PaidSafe db.orders (stripe_webhook lms req db).db.orders := by
  unfold stripe_webhook
  split
  · exact forall2_paid_safe_refl db.orders
  · split
    · exact forall2_paid_safe_refl db.orders
    · split
      · exact forall2_paid_safe_refl db.orders
      · split
        · exact forall2_paid_safe_refl db.orders
        · split
          · exact forall2_paid_safe_refl db.orders
          · split
            · exact forall2_paid_safe_refl db.orders
            · split
              · exact forall2_paid_safe_refl db.orders
              · exact forall2_paid_safe_refl db.orders
              · apply handleVerified_paid_safe

/-- A verified expired-checkout delivery for order 42 / session cs_1. -/
def exReqExpired : WebhookReq :=
  { sig_header := some "t=1,v1=sig",
    objGuess := { id := some "cs_1", metadata_order_id := some "42" },
    event_type := "checkout.session.expired",
    obj := { id := some "cs_1", metadata_order_id := some "42" } }

/-- C5: processing a verified 'checkout session expired' event marks a
row 'expired' exactly when it matches the (tenant, session) key and had
reached neither 'paid' nor 'fulfilled' (nor was already 'expired'), and
paid rows stay 'paid'; moreover, on every webhook input whatsoever, an
order whose status is 'paid' is never moved to 'expired'. -/
theorem expired_event_never_overrides_paid
    (lms : LMS) (req : WebhookReq) (db : DB) (ord : Order) (sid : String)
    (hhdr : req.sig_header.getD "" ≠ "")
    (hjson : req.json_ok = true)
    (hguess : _extract_order_id_from_event req.objGuess.metadata_order_id
        req.objGuess.client_reference_id = some ord.id)
    (hid0 : ord.id ≠ 0)
    (hload : _get_order_by_id db ord.id = some ord)
    (hsecret : (_get_tenant_stripe db ord.tenant_id).2.getD "" ≠ "")
    (hsig : req.sigOutcome = SigOutcome.ok)
    (htype : req.event_type = "checkout.session.expired")
    (hsid : strTruthy req.obj.id = some sid) :
    List.Forall₂ (ExpiredMark ord.tenant_id sid) db.orders
      (stripe_webhook lms req db).db.orders ∧
    (∀ (lms2 : LMS) (req2 : WebhookReq) (db2 : DB),
      List.Forall₂ PaidSafe db2.orders (stripe_webhook lms2 req2 db2).db.orders) := by
  have hred : stripe_webhook lms req db
      = ⟨{ ok := true }, _mark_order_expired db ord.tenant_id sid, []⟩ := by
    rw [webhook_outer_reduce lms req db ord hhdr hjson hguess hid0 hload hsecret hsig]
    unfold handleVerified
    rw [if_neg (by rw [htype]; decide), if_pos htype]
    simp [hsid]
  refine ⟨?_, fun lms2 req2 db2 => webhook_paid_safe lms2 req2 db2⟩
  rw [hred]
  exact mark_expired_forall2 db ord.tenant_id sid

/-- Witness for C5: a verified expired event against the pending order
42 / session cs_1. -/
theorem expired_event_never_overrides_paid_witness :
    List.Forall₂ (ExpiredMark 1 "cs_1") (exDb "pending" none).orders
      (stripe_webhook exLmsOk exReqExpired (exDb "pending" none)).db.orders ∧
    (∀ (lms2 : LMS) (req2 : WebhookReq) (db2 : DB),
      List.Forall₂ PaidSafe db2.orders (stripe_webhook lms2 req2 db2).db.orders) := by
  exact expired_event_never_overrides_paid exLmsOk exReqExpired (exDb "pending" none)
    ⟨42, 1, some 7, none, some "cs_1", "pending", none⟩ "cs_1"
    (by decide) rfl (by decide) (by decide) (by decide) (by decide) rfl rfl (by decide)

/-- C6: a verified completed-checkout event transitions the order to
'paid' only when its payment-status field indicates captured funds: if
payment_status is present (non-empty) and differs from 'paid' the event
is acknowledged as ignored with no state mutation and no LMS call;
otherwise (buyer email resolving from the event, product present, order
not yet fulfilled) the order row ends 'paid' (or 'fulfilled' after a
successful saga), its buyer_email is backfilled from the event exactly
when the stored email was null or empty, and a previously set buyer
email is left unchanged. -/
theorem paid_transition_gating_and_email_backfill
    (lms : LMS) (req : WebhookReq) (db : DB) (ord : Order) (sid : String)
    (hhdr : req.sig_header.getD "" ≠ "")
    (hjson : req.json_ok = true)
    (hguess : _extract_order_id_from_event req.objGuess.metadata_order_id
        req.objGuess.client_reference_id = some ord.id)
    (hid0 : ord.id ≠ 0)
    (hload : _get_order_by_id db ord.id = some ord)
    (hsecret : (_get_tenant_stripe db ord.tenant_id).2.getD "" ≠ "")
    (hsig : req.sigOutcome = SigOutcome.ok)
    (htype : req.event_type = "checkout.session.completed")
    (hsid : strTruthy req.obj.id = some sid)
    (heid : _extract_order_id_from_event req.obj.metadata_order_id
        req.obj.client_reference_id = some ord.id)
    (hsess : strTruthy ord.stripe_session_id = none ∨
      strTruthy ord.stripe_session_id = some sid) :
    ((paymentStatusOf req.obj ≠ "" ∧ paymentStatusOf req.obj ≠ "paid") →
      (stripe_webhook lms req db).resp.ok = true ∧
      (stripe_webhook lms req db).resp.ignored = true ∧
      (stripe_webhook lms req db).db = db ∧
      (stripe_webhook lms req db).tr = []) ∧
    (∀ (se : String) (pid : Int),
      (paymentStatusOf req.obj = "" ∨ paymentStatusOf req.obj = "paid") →
      stripeEmailOf req.obj = some se →
      ord.product_id = some pid →
      ord.status ≠ "fulfilled" →
      ∃ row, _get_order_by_id (stripe_webhook lms req db).db ord.id = some row ∧
        (row.status = "paid" ∨ row.status = "fulfilled") ∧
        (ord.buyer_email.getD "" = "" → row.buyer_email = some se) ∧
        (ord.buyer_email.getD "" ≠ "" → row.buyer_email = ord.buyer_email)) := by
  have hred : stripe_webhook lms req db = completedStage2 lms db ord req.obj := by
    rw [webhook_outer_reduce lms req db ord hhdr hjson hguess hid0 hload hsecret hsig]
    unfold handleVerified
    rw [if_pos htype, handleCompleted_reduce lms db ord req.obj sid hsid heid hid0 hsess]
  constructor
  · intro hnp
    rw [hred]
    unfold completedStage2
    rw [if_pos hnp]
    exact ⟨rfl, rfl, rfl, rfl⟩
  · intro se pid hpay hse hpid hnotful
    have hfe : finalEmailOf req.obj ord.buyer_email = some se := by
      unfold finalEmailOf
      rw [hse]
    rw [hred, completedStage2_saga_branch lms db ord req.obj se pid hpay hfe hpid hnotful]
    have hp1 := get_order_set_paid db ord.id (some se) ord hload
    have hsaga := get_order_saga lms (_set_order_paid_if_needed db ord.id (some se))
      ord.tenant_id se pid ord.id ord.id
    by_cases hok : (_ensure_user_and_enroll lms
        (_set_order_paid_if_needed db ord.id (some se))
        ord.tenant_id se pid ord.id).res.ok = true
    · have hfix := get_order_set_status (_ensure_user_and_enroll lms
        (_set_order_paid_if_needed db ord.id (some se))
        ord.tenant_id se pid ord.id).db ord.id "fulfilled" _ (hsaga.trans hp1)
      refine ⟨{ { ord with
          status := if ord.status = "fulfilled" then ord.status else "paid",
          buyer_email := if ord.buyer_email.getD "" = "" ∧ (some se).isSome then some se
                         else ord.buyer_email } with status := "fulfilled" },
        ?_, Or.inr rfl, ?_, ?_⟩
      · show _get_order_by_id (if (_ensure_user_and_enroll lms
            (_set_order_paid_if_needed db ord.id (some se))
            ord.tenant_id se pid ord.id).res.ok = true then _ else _) ord.id = _
        rw [if_pos hok]
        exact hfix
      · intro hbe
        simp [hbe]
      · intro hbe
        simp [hbe]
    · refine ⟨{ ord with
          status := if ord.status = "fulfilled" then ord.status else "paid",
          buyer_email := if ord.buyer_email.getD "" = "" ∧ (some se).isSome then some se
                         else ord.buyer_email },
        ?_, Or.inl (by simp [hnotful]), ?_, ?_⟩
      · show _get_order_by_id (if (_ensure_user_and_enroll lms
            (_set_order_paid_if_needed db ord.id (some se))
            ord.tenant_id se pid ord.id).res.ok = true then _ else _) ord.id = _
        rw [if_neg hok]
        exact hsaga.trans hp1
      · intro hbe
        simp [hbe]
      · intro hbe
        simp [hbe]

/-- Witness for C6: verified completed event with payment_status 'paid'
against pending order 42 whose stored email is null. -/
theorem paid_transition_gating_and_email_backfill_witness :
    ((paymentStatusOf exReqCompleted.obj ≠ "" ∧ paymentStatusOf exReqCompleted.obj ≠ "paid") →
      (stripe_webhook exLmsOk exReqCompleted (exDb "pending" none)).resp.ok = true ∧
      (stripe_webhook exLmsOk exReqCompleted (exDb "pending" none)).resp.ignored = true ∧
      (stripe_webhook exLmsOk exReqCompleted (exDb "pending" none)).db = exDb "pending" none ∧
      (stripe_webhook exLmsOk exReqCompleted (exDb "pending" none)).tr = []) ∧
    (∀ (se : String) (pid : Int),
      (paymentStatusOf exReqCompleted.obj = "" ∨ paymentStatusOf exReqCompleted.obj = "paid") →
      stripeEmailOf exReqCompleted.obj = some se →
      (some 7 : Option Int) = some pid →
      ("pending" : String) ≠ "fulfilled" →
      ∃ row, _get_order_by_id
          (stripe_webhook exLmsOk exReqCompleted (exDb "pending" none)).db 42 = some row ∧
        (row.status = "paid" ∨ row.status = "fulfilled") ∧
        ((none : Option String).getD "" = "" → row.buyer_email = some se) ∧
        ((none : Option String).getD "" ≠ "" → row.buyer_email = none)) := by
  exact paid_transition_gating_and_email_backfill exLmsOk exReqCompleted (exDb "pending" none)
    ⟨42, 1, some 7, none, some "cs_1", "pending", none⟩ "cs_1"
    (by decide) rfl (by decide) (by decide) (by decide) (by decide) rfl rfl (by decide)
    (by decide) (Or.inr (by decide))

/-- Every return path of the completed branch is a plain dict: HTTP 200. -/
theorem completedStage2_status (lms : LMS) (db : DB) (ord : Order) (obj : StripeObj) :
    (completedStage2 lms db ord obj).resp.httpStatus = 200 := by
  simp only [completedStage2]
  split
  · rfl
  · split
    · rfl
    · split
      · rfl
      · split
        · rfl
        · rfl

/-- Every return path of the completed-branch checks is HTTP 200. -/
theorem handleCompleted_status (lms : LMS) (db : DB) (ord : Order) (obj : StripeObj) :
    (handleCompleted lms db ord obj).resp.httpStatus = 200 := by
  unfold handleCompleted
  split
  · rfl
  · split
    · rfl
    · split
      · rfl
      · split
        · split
          · rfl
          · exact completedStage2_status lms db ord obj
        · exact completedStage2_status lms db ord obj

/-- Every return path of the dispatch is HTTP 200. -/
theorem handleVerified_status (lms : LMS) (req : WebhookReq) (db : DB) (ord : Order) :
    (handleVerified lms req db ord).resp.httpStatus = 200 := by
  unfold handleVerified
  split
  · exact handleCompleted_status lms db ord req.obj
  · split
    · split
      · rfl
      · rfl
    · rfl

/-- Every return path of the webhook handler is a plain dict from a
FastAPI route: the HTTP status is 200 on every input. -/
theorem webhook_status_200 (lms : LMS) (req : WebhookReq) (db : DB) :
    (stripe_webhook lms req db).resp.httpStatus = 200 := by
  unfold stripe_webhook
  split
  · rfl
  · split
    · rfl
    · split
      · rfl
      · split
        · rfl
        · split
          · rfl
          · split
            · rfl
            · split
              · rfl
              · rfl
              · exact handleVerified_status lms req db _

/-- A delivery identical to `exReqCompleted` but whose signature fails
verification against the tenant's webhook secret. -/
def exReqBadSig : WebhookReq :=
  { exReqCompleted with sigOutcome := SigOutcome.sigFail }

/-- Counterexample to C8: a request whose cryptographic signature
verification fails is answered with HTTP status 200 (the handler returns
a plain `ok=false` dict), not with a non-200 status as the claim
requires. -/
theorem webhook_sig_failure_http200_counterexample :
    (stripe_webhook exLmsOk exReqBadSig (exDb "pending" none)).resp.httpStatus = 200 ∧
    (stripe_webhook exLmsOk exReqBadSig (exDb "pending" none)).resp.ok = false ∧
    (stripe_webhook exLmsOk exReqBadSig (exDb "pending" none)).resp.message
      = some "Invalid Stripe signature" := by
  decide

/-- C8 (amended): the webhook endpoint responds with HTTP 200 in every
case — including signature-verification failure and malformed payload,
which are reported only through `ok=false` (with a distinguishing
message) in the JSON body; no return path of the handler produces a
non-200 status. -/
theorem webhook_http_always_200_amended
    (lms : LMS) (req : WebhookReq) (db : DB) (ord : Order)
    (hhdr : req.sig_header.getD "" ≠ "")
    (hjson : req.json_ok = true)
    (hguess : _extract_order_id_from_event req.objGuess.metadata_order_id
        req.objGuess.client_reference_id = some ord.id)
    (hid0 : ord.id ≠ 0)
    (hload : _get_order_by_id db ord.id = some ord)
    (hsecret : (_get_tenant_stripe db ord.tenant_id).2.getD "" ≠ "") :
    (∀ (lms2 : LMS) (req2 : WebhookReq) (db2 : DB),
      (stripe_webhook lms2 req2 db2).resp.httpStatus = 200) ∧
    (req.sigOutcome = SigOutcome.sigFail →
      (stripe_webhook lms req db).resp.ok = false ∧
      (stripe_webhook lms req db).resp.message = some "Invalid Stripe signature" ∧
      (stripe_webhook lms req db).db = db ∧
      (stripe_webhook lms req db).tr = []) ∧
    (∀ (req3 : WebhookReq), req3.sig_header.getD "" ≠ "" → req3.json_ok = false →
      (stripe_webhook lms req3 db).resp.ok = false ∧
      (stripe_webhook lms req3 db).resp.message = some "Invalid JSON payload") := by
  refine ⟨fun lms2 req2 db2 => webhook_status_200 lms2 req2 db2, ?_, ?_⟩
  · intro hsf
    have : stripe_webhook lms req db
        = ⟨{ ok := false, message := some "Invalid Stripe signature" }, db, []⟩ := by
      unfold stripe_webhook
      simp [hhdr, hjson, hguess, hid0, hload, hsecret, hsf]
    rw [this]
    exact ⟨rfl, rfl, rfl, rfl⟩
  · intro req3 h3hdr h3json
    have : stripe_webhook lms req3 db
        = ⟨{ ok := false, message := some "Invalid JSON payload" }, db, []⟩ := by
      unfold stripe_webhook
      rw [if_neg h3hdr, if_pos (by rw [h3json]; decide)]
    rw [this]
    exact ⟨rfl, rfl⟩

/-- Witness for the amended C8, at the failed-signature delivery. -/
theorem webhook_http_always_200_amended_witness :
    (stripe_webhook exLmsOk exReqBadSig (exDb "pending" none)).resp.httpStatus = 200 ∧
    (stripe_webhook exLmsOk exReqBadSig (exDb "pending" none)).resp.ok = false ∧
    (stripe_webhook exLmsOk exReqBadSig (exDb "pending" none)).resp.message
      = some "Invalid Stripe signature" ∧
    (stripe_webhook exLmsOk exReqBadSig (exDb "pending" none)).db = exDb "pending" none := by
  have h := webhook_http_always_200_amended exLmsOk exReqBadSig (exDb "pending" none)
    ⟨42, 1, some 7, none, some "cs_1", "pending", none⟩
    (by decide) rfl (by decide) (by decide) (by decide) (by decide)
  have h2 := h.2.1 rfl
  exact ⟨h.1 exLmsOk exReqBadSig (exDb "pending" none), h2.1, h2.2.1, h2.2.2.1⟩

/-- C10: when the computed minor-unit amount is below 50 — including a
null (or zero) stored price with no discount set — checkout-session
creation answers ok=false with message 'Invalid price', inserts no order
(the database is returned unchanged) and never contacts the payment
processor. -/
theorem checkout_minimum_amount_guard
    (db : DB) (tenant_id : Int) (req : CheckoutReq) (pid : Int)
    (stripeCreate : Except String StripeSession) (prod : Product)
    (hpid : req.product_id = some pid)
    (hpid0 : pid ≠ 0)
    (hkey : (_get_tenant_stripe_keys db tenant_id).1.getD "" ≠ "")
    (hhost : _frontend_base_url_from_host ((checkoutHost db tenant_id).getD "") ≠ "")
    (hprod : db.products.find? (fun r => r.tenant_id == tenant_id && r.id == pid) = some prod)
    (hamount : (match prod.discounted_price with
        | some d => decCentsHalfUp d
        | none => prod.price_cents.getD 0) < 50) :
    create_checkout_session db tenant_id req stripeCreate =
      { ok := false, message := some "Invalid price", db := db } := by
  unfold create_checkout_session
  simp only [hpid]
  rw [if_neg hpid0, if_neg hkey, if_neg hhost]
  simp only [hprod]
  rw [if_pos hamount]

/-- A product with no stored price and no discount. -/
def exDbNoPrice : DB :=
  { exDb "pending" none with products := [{ id := 7, tenant_id := 1 }] }

/-- Witness for C10: a null stored price with no discount computes
amount 0 < 50 and is rejected with no insert and no processor call. -/
theorem checkout_minimum_amount_guard_witness :
    create_checkout_session exDbNoPrice 1 { product_id := some 7 }
        (Except.ok ⟨"cs_new", "secret"⟩) =
      { ok := false, message := some "Invalid price", db := exDbNoPrice } := by
  exact checkout_minimum_amount_guard exDbNoPrice 1 { product_id := some 7 } 7
    (Except.ok ⟨"cs_new", "secret"⟩) { id := 7, tenant_id := 1 }
    rfl (by decide) (by decide) (by decide) (by decide) (by decide)

/-- C7: the charge amount in integer minor units sent to the payment
processor equals the product's stored minor-unit price when no discount
price is set, and otherwise equals the discount price converted to cents
with round-half-up — the discount takes priority; in particular a stored
price of 1999 (19.99) with no discount yields exactly 1999, and a
discount price of 15.995 converts to exactly 1600. -/
theorem checkout_amount_computation
    (db : DB) (tenant_id : Int) (req : CheckoutReq) (pid : Int)
    (stripeCreate : Except String StripeSession) (prod : Product)
    (hpid : req.product_id = some pid)
    (hpid0 : pid ≠ 0)
    (hkey : (_get_tenant_stripe_keys db tenant_id).1.getD "" ≠ "")
    (hhost : _frontend_base_url_from_host ((checkoutHost db tenant_id).getD "") ≠ "")
    (hprod : db.products.find? (fun r => r.tenant_id == tenant_id && r.id == pid) = some prod) :
    (prod.discounted_price = none → 50 ≤ prod.price_cents.getD 0 →
      ((create_checkout_session db tenant_id req stripeCreate).stripeCall.map
        (fun c => c.unit_amount)) = some (prod.price_cents.getD 0)) ∧
    (∀ q, prod.discounted_price = some q → 50 ≤ decCentsHalfUp q →
      ((create_checkout_session db tenant_id req stripeCreate).stripeCall.map
        (fun c => c.unit_amount)) = some (decCentsHalfUp q)) ∧
    decCentsHalfUp (mkRat 1999 100) = 1999 ∧
    decCentsHalfUp (mkRat 15995 1000) = 1600 := by
  refine ⟨?_, ?_, by decide, by decide⟩
  · intro hnd h50
    unfold create_checkout_session
    simp only [hpid]
    rw [if_neg hpid0, if_neg hkey, if_neg hhost]
    simp only [hprod, hnd]
    rw [if_neg (not_lt.mpr h50)]
    cases stripeCreate <;> rfl
  · intro q hd h50
    unfold create_checkout_session
    simp only [hpid]
    rw [if_neg hpid0, if_neg hkey, if_neg hhost]
    simp only [hprod, hd]
    rw [if_neg (not_lt.mpr h50)]
    cases stripeCreate <;> rfl

/-- `exDb` with the product carrying a 15.995 discount price. -/
def exDbDiscount : DB :=
  { exDb "pending" none with
    products := [{ id := 7, tenant_id := 1, price_cents := some 1999,
                   discounted_price := some (mkRat 15995 1000) }] }

/-- Witness for C7: 1999 with no discount charges 1999; the 15.995
discount charges 1600. -/
theorem checkout_amount_computation_witness :
    ((create_checkout_session (exDb "pending" none) 1 { product_id := some 7 }
        (Except.ok ⟨"cs_new", "secret"⟩)).stripeCall.map (fun c => c.unit_amount))
      = some 1999 ∧
    ((create_checkout_session exDbDiscount 1 { product_id := some 7 }
        (Except.ok ⟨"cs_new", "secret"⟩)).stripeCall.map (fun c => c.unit_amount))
      = some 1600 := by
  have h1 := checkout_amount_computation (exDb "pending" none) 1 { product_id := some 7 } 7
    (Except.ok ⟨"cs_new", "secret"⟩) { id := 7, tenant_id := 1, price_cents := some 1999 }
    rfl (by decide) (by decide) (by decide) (by decide)
  have h2 := checkout_amount_computation exDbDiscount 1 { product_id := some 7 } 7
    (Except.ok ⟨"cs_new", "secret"⟩)
    { id := 7, tenant_id := 1, price_cents := some 1999,
      discounted_price := some (mkRat 15995 1000) }
    rfl (by decide) (by decide) (by decide) (by decide)
  exact ⟨h1.1 rfl (by decide),
    (h2.2.1 (mkRat 15995 1000) rfl (by decide)).trans (by decide)⟩

/-- `exDb` with no orders yet (the state just before a first checkout). -/
def exDbNoOrders : DB := { exDb "pending" none with orders := [] }

/-- Counterexample to C9: starting from a database with no orders, when
the payment-session call fails the handler's `db.rollback()` (the
session commits only at the end, app/core/db.py) undoes the order
insert: the error is surfaced, the processor was contacted, but the
database afterwards contains no order at all — the order does not
"remain in the database in 'pending' status". -/
theorem checkout_stripe_failure_rollback_counterexample :
    (create_checkout_session exDbNoOrders 1 { product_id := some 7 }
        (Except.error "StripeError: boom")).ok = false ∧
    (create_checkout_session exDbNoOrders 1 { product_id := some 7 }
        (Except.error "StripeError: boom")).message = some "StripeError: boom" ∧
    ((create_checkout_session exDbNoOrders 1 { product_id := some 7 }
        (Except.error "StripeError: boom")).stripeCall.isSome = true) ∧
    (create_checkout_session exDbNoOrders 1 { product_id := some 7 }
        (Except.error "StripeError: boom")).db.orders = [] := by
  decide

/-- C9 (amended): checkout-session creation builds the Order row in
'pending' status with the computed total and inserts it before the
processor call — the fresh order id is embedded in the call, and on
success the row is committed, still 'pending', with the session id
persisted — but when the external payment-session call fails, the error
is surfaced to the caller and the transaction is rolled back, so the
uncommitted insert is undone and the database is unchanged: no pending
order remains to be treated as abandoned later. -/
theorem checkout_insert_then_rollback_amended
    (db : DB) (tenant_id : Int) (req : CheckoutReq) (pid : Int) (prod : Product)
    (hpid : req.product_id = some pid)
    (hpid0 : pid ≠ 0)
    (hkey : (_get_tenant_stripe_keys db tenant_id).1.getD "" ≠ "")
    (hhost : _frontend_base_url_from_host ((checkoutHost db tenant_id).getD "") ≠ "")
    (hprod : db.products.find? (fun r => r.tenant_id == tenant_id && r.id == pid) = some prod)
    (hamount : ¬((match prod.discounted_price with
        | some d => decCentsHalfUp d
        | none => prod.price_cents.getD 0) < 50)) :
    (∀ e, (create_checkout_session db tenant_id req (Except.error e)).ok = false ∧
      (create_checkout_session db tenant_id req (Except.error e)).message = some e ∧
      (create_checkout_session db tenant_id req (Except.error e)).db = db ∧
      ((create_checkout_session db tenant_id req (Except.error e)).stripeCall.map
        (fun c => c.metadata_order_id)) = some (freshOrderId db)) ∧
    (∀ (s : StripeSession),
      (create_checkout_session db tenant_id req (Except.ok s)).ok = true ∧
      (create_checkout_session db tenant_id req (Except.ok s)).db.orders.getLast?
        = some { id := freshOrderId db, tenant_id := tenant_id, product_id := some pid,
                 buyer_email := strTruthy (some (pyLower (pyStrip (req.customer_email.getD "")))),
                 stripe_session_id := some s.id, status := "pending",
                 total_cents := some (match prod.discounted_price with
                   | some d => decCentsHalfUp d
                   | none => prod.price_cents.getD 0) }) := by
  constructor
  · intro e
    unfold create_checkout_session
    simp only [hpid]
    rw [if_neg hpid0, if_neg hkey, if_neg hhost]
    simp only [hprod]
    rw [if_neg hamount]
    exact ⟨rfl, rfl, rfl, rfl⟩
  · intro s
    unfold create_checkout_session
    simp only [hpid]
    rw [if_neg hpid0, if_neg hkey, if_neg hhost]
    simp only [hprod]
    rw [if_neg hamount]
    refine ⟨rfl, ?_⟩
    simp [List.getLast?_concat]

/-- Witness for the amended C9: the failed call surfaces the error and
leaves the empty database unchanged; the successful call persists the
pending order with total 1999 and the session id. -/
theorem checkout_insert_then_rollback_amended_witness :
    ((create_checkout_session exDbNoOrders 1 { product_id := some 7 }
        (Except.error "StripeError: boom")).ok = false ∧
      (create_checkout_session exDbNoOrders 1 { product_id := some 7 }
        (Except.error "StripeError: boom")).message = some "StripeError: boom" ∧
      (create_checkout_session exDbNoOrders 1 { product_id := some 7 }
        (Except.error "StripeError: boom")).db = exDbNoOrders ∧
      ((create_checkout_session exDbNoOrders 1 { product_id := some 7 }
        (Except.error "StripeError: boom")).stripeCall.map
          (fun c => c.metadata_order_id)) = some (freshOrderId exDbNoOrders)) ∧
    (create_checkout_session exDbNoOrders 1 { product_id := some 7 }
        (Except.ok ⟨"cs_new", "secret"⟩)).db.orders.getLast?
      = some { id := freshOrderId exDbNoOrders, tenant_id := 1, product_id := some 7,
               buyer_email := none, stripe_session_id := some "cs_new",
               status := "pending", total_cents := some 1999 } := by
  have h := checkout_insert_then_rollback_amended exDbNoOrders 1 { product_id := some 7 } 7
    { id := 7, tenant_id := 1, price_cents := some 1999 }
    rfl (by decide) (by decide) (by decide) (by decide) (by decide)
  exact ⟨h.1 "StripeError: boom", (h.2 ⟨"cs_new", "secret"⟩).2.trans (by decide)⟩
